import Mathlib

/-!
# Trajectory generation (`src/trajectory.cpp`): Lean embedding and checked properties

The C++ `double` type is embedded as an arbitrary linearly ordered field `K`
(exact arithmetic; `K = ℝ` is the intended reading, `K = ℚ` lets every
definition be evaluated).  `vector<double>` is `List K`.  An access `v[i]`
outside the bounds of a vector has no defined behaviour in the source; here it
is the fault `Fault.outOfBounds`.  A failed `assert` is the fault
`Fault.assertion`.
-/

set_option linter.unusedVariables false
set_option linter.unusedSectionVars false

namespace Trajectory

/-- The two ways a call can fail to return: a failed `assert`, or an index
outside the bounds of a vector. -/
inductive Fault where
  | assertion
  | outOfBounds
  deriving DecidableEq, Repr

/-- The read `v[i]` with a C++ `int` index. -/
def vget {α : Type} (v : List α) (i : Int) : Except Fault α :=
  if 0 ≤ i then
    match v[i.toNat]? with
    | some a => Except.ok a
    | none => Except.error Fault.outOfBounds
  else Except.error Fault.outOfBounds

/-- The write `v[i] = a` with a C++ `int` index. -/
def vset {α : Type} (v : List α) (i : Int) (a : α) : Except Fault (List α) :=
  if 0 ≤ i ∧ i.toNat < v.length then Except.ok (v.set i.toNat a)
  else Except.error Fault.outOfBounds

/-- The statement `assert(c)`. -/
def cassert (c : Prop) [Decidable c] : Except Fault Unit :=
  if c then Except.ok () else Except.error Fault.assertion

section PolynomialEngine

variable {K : Type} [LinearOrderedField K]

/-- A 3x3 matrix, row by row (`MatrixXd A(3,3)`). -/
structure Mat3 (K : Type) where
  a11 : K
  a12 : K
  a13 : K
  a21 : K
  a22 : K
  a23 : K
  a31 : K
  a32 : K
  a33 : K

/-- A vector of 3 entries (`VectorXd b(3)`). -/
structure Vec3 (K : Type) where
  x0 : K
  x1 : K
  x2 : K

/-- Determinant of a 3x3 matrix. -/
def Mat3.det (A : Mat3 K) : K :=
  A.a11 * (A.a22 * A.a33 - A.a23 * A.a32)
    - A.a12 * (A.a21 * A.a33 - A.a23 * A.a31)
    + A.a13 * (A.a21 * A.a32 - A.a22 * A.a31)

/-- The call `A.inverse()`.  Over exact arithmetic the inverse of a nonsingular
matrix is unique, so it is given in closed form (cofactors over the
determinant) whatever elimination the library runs.  For a singular matrix the
source computes no real number (its floating-point result is infinite or NaN);
the value given here for that case comes from the convention `x / 0 = 0` and no
statement about solved coefficients below is made for it. -/
def Mat3.inverse (A : Mat3 K) : Mat3 K :=
  let dt := A.det
  { a11 := (A.a22 * A.a33 - A.a23 * A.a32) / dt
    a12 := (A.a13 * A.a32 - A.a12 * A.a33) / dt
    a13 := (A.a12 * A.a23 - A.a13 * A.a22) / dt
    a21 := (A.a23 * A.a31 - A.a21 * A.a33) / dt
    a22 := (A.a11 * A.a33 - A.a13 * A.a31) / dt
    a23 := (A.a13 * A.a21 - A.a11 * A.a23) / dt
    a31 := (A.a21 * A.a32 - A.a22 * A.a31) / dt
    a32 := (A.a12 * A.a31 - A.a11 * A.a32) / dt
    a33 := (A.a11 * A.a22 - A.a12 * A.a21) / dt }

/-- Matrix times vector. -/
def Mat3.mulVec (A : Mat3 K) (b : Vec3 K) : Vec3 K :=
  { x0 := A.a11 * b.x0 + A.a12 * b.x1 + A.a13 * b.x2
    x1 := A.a21 * b.x0 + A.a22 * b.x1 + A.a23 * b.x2
    x2 := A.a31 * b.x0 + A.a32 * b.x1 + A.a33 * b.x2 }

/-- The matrix `A` that `JMT` builds from the duration `T` (lines 54-56). -/
def JMT_A (T : K) : Mat3 K :=
  { a11 := T ^ 3,     a12 := T ^ 4,      a13 := T ^ 5
    a21 := 3 * T ^ 2, a22 := 4 * T ^ 3,  a23 := 5 * T ^ 4
    a31 := 6 * T,     a32 := 12 * T ^ 2, a33 := 20 * T ^ 3 }

/-- The function `JMT(start, end, T)`: the six coefficients of the quintic that
joins the boundary state `start` to the boundary state `end` in time `T`. -/
def JMT (start end_ : List K) (T : K) : Except Fault (List K) := do
  let A := JMT_A T
  let e0 ← vget end_ 0
  let s0 ← vget start 0
  let s1 ← vget start 1
  let s2 ← vget start 2
  let e1 ← vget end_ 1
  let e2 ← vget end_ 2
  let b : Vec3 K :=
    { x0 := e0 - (s0 + s1 * T + (1 / 2) * s2 * T * T)
      x1 := e1 - (s1 + s2 * T)
      x2 := e2 - s2 }
  let x := A.inverse.mulVec b
  pure [s0, s1, s2 / 2, x.x0, x.x1, x.x2]

/-- The function `polyeval(c, t)`: the loop `res += c[i] * pow(t, i)` for
`i = 0 .. c.size()-1`. -/
def polyeval (c : List K) (t : K) : K :=
  (List.range' 0 c.length).foldl (fun (res : K) (i : Nat) => res + c.getD i 0 * t ^ i) 0

/-- The function `polyeval_dot(c, t)`: the loop `res += i * c[i] * pow(t, i-1)`
for `i = 1 .. c.size()-1`. -/
def polyeval_dot (c : List K) (t : K) : K :=
  (List.range' 1 (c.length - 1)).foldl
    (fun (res : K) (i : Nat) => res + (i : K) * c.getD i 0 * t ^ (i - 1)) 0

/-- The function `polyeval_ddot(c, t)`: the loop
`res += i * (i-1) * c[i] * pow(t, i-2)` for `i = 2 .. c.size()-1`; the product
`i * (i-1)` is formed in integers. -/
def polyeval_ddot (c : List K) (t : K) : K :=
  (List.range' 2 (c.length - 2)).foldl
    (fun (res : K) (i : Nat) => res + ((i * (i - 1) : Nat) : K) * c.getD i 0 * t ^ (i - 2)) 0

/-- The coefficient list that `JMT` returns on boundary states of three
entries, `start = [s0, v0, a0]` and `end = [s1, v1, a1]` (the `return` at
line 64 with lines 54-62 substituted). -/
def JMT_coeffs (s0 v0 a0 s1 v1 a1 T : K) : List K :=
  let x := (JMT_A T).inverse.mulVec
    { x0 := s1 - (s0 + v0 * T + (1 / 2) * a0 * T * T)
      x1 := v1 - (v0 + a0 * T)
      x2 := a1 - a0 }
  [s0, v0, a0 / 2, x.x0, x.x1, x.x2]

end PolynomialEngine

section Generators

variable {K : Type} [LinearOrderedField K]

/-- The constants and conversions of `params.h` and `utility.h`, which are not
among the sources read here; they are parameters of the model. -/
structure Params (K : Type) where
  param_nb_points : Nat
  param_dt : K
  get_dcenter : Int → K
  mph_to_ms : K → K
  deg2rad : K → K

/-- Modelled from the spec: the road map (`map.h`), an external collaborator
exposing two pure conversions from Frenet `(s, d)` to Cartesian `(x, y)`. -/
structure Map (K : Type) where
  getXY : K → K → K × K
  getXYspline : K → K → K × K

/-- The functions of the C math library that `generate_trajectory` calls. -/
structure Libm (K : Type) where
  cos : K → K
  sin : K → K
  atan2 : K → K → K
  sqrt : K → K

/-- The file-level state: the buffers `previous_path_s` and `previous_path_d`
(lines 14-15), each entry being `{position, velocity, acceleration}`. -/
structure Tracker (K : Type) where
  previous_path_s : List (List K)
  previous_path_d : List (List K)

/-- The buffers as created at lines 14-15: `param_nb_points` entries
`{0, 0, 0}`. -/
def Tracker.fresh (N : Nat) : Tracker K :=
  { previous_path_s := List.replicate N [0, 0, 0]
    previous_path_d := List.replicate N [0, 0, 0] }

/-- The function `JMT_init(car_s, car_d)`. -/
def JMT_init (car_s car_d : K) (tr : Tracker K) : Except Fault (Tracker K) := do
  let s ← vset tr.previous_path_s 0 [car_s, 0, 0]
  let d ← vset tr.previous_path_d 0 [car_d, 0, 0]
  pure { previous_path_s := s, previous_path_d := d }

/-- The read `v[i][j]`. -/
def vget2 (v : List (List K)) (i j : Int) : Except Fault K := do
  let e ← vget v i
  vget e j

/-- A loop `for (int i = i0; i < i0 + n; i++) body`, whose body does not
assign `i`. -/
def forLoop {σ : Type} (body : Nat → σ → Except Fault σ) :
    Nat → Nat → σ → Except Fault σ
  | 0, _, st => Except.ok st
  | n + 1, i, st =>
    match body i st with
    | Except.ok st1 => forLoop body n (i + 1) st1
    | Except.error e => Except.error e

/-- The variables that the two loops of `generate_trajectory_jmt` update. -/
structure JmtState (K : Type) where
  previous_path_s : List (List K)
  previous_path_d : List (List K)
  next_x_vals : List K
  next_y_vals : List K
  t : K

/-- Body of the first loop of `generate_trajectory_jmt` (lines 142-146). -/
def jmt_carry_body (P : Params K) (previous_path_x previous_path_y : List K)
    (i : Nat) (st : JmtState K) : Except Fault (JmtState K) := do
  let prev_size : Int := previous_path_x.length
  let es ← vget st.previous_path_s ((P.param_nb_points : Int) - prev_size + i)
  let s1 ← vset st.previous_path_s i es
  let ed ← vget st.previous_path_d ((P.param_nb_points : Int) - prev_size + i)
  let d1 ← vset st.previous_path_d i ed
  let x ← vget previous_path_x i
  let y ← vget previous_path_y i
  pure { st with previous_path_s := s1, previous_path_d := d1,
                 next_x_vals := st.next_x_vals ++ [x],
                 next_y_vals := st.next_y_vals ++ [y] }

/-- Body of the second loop of `generate_trajectory_jmt` (lines 152-168). -/
def jmt_sample_body (P : Params K) (map : Map K) (poly_s poly_d : List K)
    (i : Nat) (st : JmtState K) : Except Fault (JmtState K) := do
  let s := polyeval poly_s st.t
  let s_dot := polyeval_dot poly_s st.t
  let s_ddot := polyeval_ddot poly_s st.t
  let d := polyeval poly_d st.t
  let d_dot := polyeval_dot poly_d st.t
  let d_ddot := polyeval_ddot poly_d st.t
  let s1 ← vset st.previous_path_s i [s, s_dot, s_ddot]
  let d1 ← vset st.previous_path_d i [d, d_dot, d_ddot]
  let point_xy := map.getXYspline s d
  pure { previous_path_s := s1, previous_path_d := d1,
         next_x_vals := st.next_x_vals ++ [point_xy.1],
         next_y_vals := st.next_y_vals ++ [point_xy.2],
         t := st.t + P.param_dt }

/-- The function `generate_trajectory_jmt`.  The tracker is passed in and the
tracker after the call is returned beside the path `{next_x_vals, next_y_vals}`. -/
def generate_trajectory_jmt (P : Params K) (target_lane : Int) (target_vel : K)
    (map : Map K) (car_x car_y car_yaw car_s car_d : K)
    (previous_path_x previous_path_y : List K) (tr : Tracker K) :
    Except Fault (List (List K) × Tracker K) := do
  let prev_size : Nat := previous_path_x.length
  let nb_points_used : Int := (P.param_nb_points : Int) - prev_size
  let last_point : Int := nb_points_used - 1
  let a_s ← vget2 tr.previous_path_s last_point 0
  cassert (car_s = a_s)
  let a_d ← vget2 tr.previous_path_d last_point 0
  cassert (car_d = a_d)
  let T : K := 2
  let si ← vget2 tr.previous_path_s last_point 0
  let si_dot ← vget2 tr.previous_path_s last_point 1
  let si_ddot ← vget2 tr.previous_path_s last_point 2
  let di ← vget2 tr.previous_path_d last_point 0
  let di_dot ← vget2 tr.previous_path_d last_point 1
  let di_ddot ← vget2 tr.previous_path_d last_point 2
  let start_s := [si, si_dot, si_ddot]
  let end_s := [car_s, 0, 0]
  let start_d := [di, di_dot, di_ddot]
  let end_d := [P.get_dcenter target_lane, 0, 0]
  let poly_s ← JMT start_s end_s T
  let poly_d ← JMT start_d end_d T
  let st0 : JmtState K :=
    { previous_path_s := tr.previous_path_s, previous_path_d := tr.previous_path_d,
      next_x_vals := [], next_y_vals := [], t := 0 }
  let st1 ← forLoop (jmt_carry_body P previous_path_x previous_path_y) prev_size 0 st0
  let st2 ← forLoop (jmt_sample_body P map poly_s poly_d)
    (P.param_nb_points - prev_size) prev_size { st1 with t := 0 }
  pure ([st2.next_x_vals, st2.next_y_vals],
        { previous_path_s := st2.previous_path_s, previous_path_d := st2.previous_path_d })

/-- The anchor data that `generate_trajectory` sets up at lines 181-212. -/
structure Anchor (K : Type) where
  ref_x : K
  ref_y : K
  ref_yaw : K
  ptsx : List K
  ptsy : List K

/-- Lines 181-212 of `generate_trajectory`: the reference pose and the first
two anchor points. -/
def spline_anchor (P : Params K) (L : Libm K) (car_x car_y car_yaw : K)
    (previous_path_x previous_path_y : List K) : Except Fault (Anchor K) := do
  let prev_size : Int := previous_path_x.length
  if prev_size < 2 then
    let prev_car_x := car_x - L.cos car_yaw
    let prev_car_y := car_y - L.sin car_yaw
    pure { ref_x := car_x, ref_y := car_y, ref_yaw := P.deg2rad car_yaw,
           ptsx := [prev_car_x, car_x], ptsy := [prev_car_y, car_y] }
  else
    let ref_x ← vget previous_path_x (prev_size - 1)
    let ref_y ← vget previous_path_y (prev_size - 1)
    let ref_x_prev ← vget previous_path_x (prev_size - 2)
    let ref_y_prev ← vget previous_path_y (prev_size - 2)
    let ref_yaw := L.atan2 (ref_y - ref_y_prev) (ref_x - ref_x_prev)
    pure { ref_x := ref_x, ref_y := ref_y, ref_yaw := ref_yaw,
           ptsx := [ref_x_prev, ref_x], ptsy := [ref_y_prev, ref_y] }

/-- Body of the loop at lines 228-240: point `i` is shifted and rotated into
the frame of the reference pose. -/
def spline_transform_body (L : Libm K) (ref_x ref_y ref_yaw : K)
    (i : Nat) (pts : List K × List K) : Except Fault (List K × List K) := do
  let px ← vget pts.1 i
  let shift_x := px - ref_x
  let py ← vget pts.2 i
  let shift_y := py - ref_y
  let ptsx ← vset pts.1 i (shift_x * L.cos (0 - ref_yaw) - shift_y * L.sin (0 - ref_yaw))
  let ptsy ← vset pts.2 i (shift_x * L.sin (0 - ref_yaw) + shift_y * L.cos (0 - ref_yaw))
  pure (ptsx, ptsy)

/-- The variables that the last loop of `generate_trajectory` updates. -/
structure SplineState (K : Type) where
  x_add_on : K
  next_x_vals : List K
  next_y_vals : List K

/-- Body of the loop at lines 249-253 of `generate_trajectory`. -/
def spline_carry_body (previous_path_x previous_path_y : List K)
    (i : Nat) (st : SplineState K) : Except Fault (SplineState K) := do
  let x ← vget previous_path_x i
  let y ← vget previous_path_y i
  pure { st with next_x_vals := st.next_x_vals ++ [x],
                 next_y_vals := st.next_y_vals ++ [y] }

/-- Body of the loop at lines 264-284 of `generate_trajectory`; `spl` is the
fitted curve. -/
def spline_sample_body (P : Params K) (L : Libm K) (spl : K → K)
    (target_vel target_x target_dist ref_x ref_y ref_yaw : K)
    (_i : Nat) (st : SplineState K) : Except Fault (SplineState K) :=
  let N := target_dist / (P.param_dt * P.mph_to_ms target_vel)
  let x_point := st.x_add_on + target_x / N
  let y_point := spl x_point
  let x_ref := x_point
  let y_ref := y_point
  let x_point1 := x_ref * L.cos ref_yaw - y_ref * L.sin ref_yaw
  let y_point1 := x_ref * L.sin ref_yaw + y_ref * L.cos ref_yaw
  Except.ok { x_add_on := x_point,
              next_x_vals := st.next_x_vals ++ [x_point1 + ref_x],
              next_y_vals := st.next_y_vals ++ [y_point1 + ref_y] }

/-- The function `generate_trajectory`.  The curve fitting of `spline.h`
(`set_points` followed by evaluation), which is not among the sources read
here, is the parameter `set_points`: the anchor lists give a function of the
local abscissa.  Whatever that library requires of the anchors is outside this
model. -/
def generate_trajectory (P : Params K) (L : Libm K)
    (set_points : List K → List K → K → K)
    (target_lane : Int) (target_vel : K)
    (map : Map K) (car_x car_y car_yaw car_s car_d : K)
    (previous_path_x previous_path_y : List K) : Except Fault (List (List K)) := do
  let prev_size : Nat := previous_path_x.length
  let a ← spline_anchor P L car_x car_y car_yaw previous_path_x previous_path_y
  let next_wp0 := map.getXY (car_s + 30) (P.get_dcenter target_lane)
  let next_wp1 := map.getXY (car_s + 60) (P.get_dcenter target_lane)
  let next_wp2 := map.getXY (car_s + 90) (P.get_dcenter target_lane)
  let ptsx := a.ptsx ++ [next_wp0.1] ++ [next_wp1.1] ++ [next_wp2.1]
  let ptsy := a.ptsy ++ [next_wp0.2] ++ [next_wp1.2] ++ [next_wp2.2]
  let pts ← forLoop (spline_transform_body L a.ref_x a.ref_y a.ref_yaw)
    ptsx.length 0 (ptsx, ptsy)
  let spl := set_points pts.1 pts.2
  let st0 : SplineState K := { x_add_on := 0, next_x_vals := [], next_y_vals := [] }
  let st1 ← forLoop (spline_carry_body previous_path_x previous_path_y) prev_size 0 st0
  let target_x : K := 30
  let target_y := spl target_x
  let target_dist := L.sqrt (target_x * target_x + target_y * target_y)
  let st2 ← forLoop
    (spline_sample_body P L spl target_vel target_x target_dist a.ref_x a.ref_y a.ref_yaw)
    (P.param_nb_points - prev_size) 1 st1
  pure [st2.next_x_vals, st2.next_y_vals]

/-- The triples `{s, s_dot, s_ddot}` that lines 152-161 form from the
coefficients `c` at the times `0, dt, 2 dt, ..`, `n` of them. -/
def jmt_track (c : List K) (dt : K) (n : ℕ) : List (List K) :=
  (List.range n).map
    (fun (k : ℕ) => [polyeval c ((k : K) * dt), polyeval_dot c ((k : K) * dt),
                     polyeval_ddot c ((k : K) * dt)])

/-- The points `map.getXYspline(s, d)` that line 163 forms from the
coefficients `poly_s`, `poly_d` at the times `0, dt, 2 dt, ..`, `n` of them. -/
def jmt_points (map : Map K) (poly_s poly_d : List K) (dt : K) (n : ℕ) : List (K × K) :=
  (List.range n).map
    (fun (k : ℕ) => map.getXYspline (polyeval poly_s ((k : K) * dt))
                                    (polyeval poly_d ((k : K) * dt)))

/-- A configuration on the rationals for evaluating the model: the horizon 50
and the sample interval 0.02 are the documented defaults; the lane centre and
the two conversions stand in for `utility.h`, which is not among the sources. -/
def testParams : Params ℚ :=
  { param_nb_points := 50
    param_dt := 1 / 50
    get_dcenter := fun lane => 2 + 4 * (lane : ℚ)
    mph_to_ms := fun v => v * 100 / 224
    deg2rad := fun x => x * 355 / (113 * 180) }

/-- A straight road along the x axis, for evaluating the model. -/
def testMap : Map ℚ :=
  { getXY := fun s d => (s, d)
    getXYspline := fun s d => (s, d) }

/-- Rational stand-ins for the math library, for evaluating the model on
inputs where only the heading 0 occurs. -/
def testLibm : Libm ℚ :=
  { cos := fun _ => 1
    sin := fun _ => 0
    atan2 := fun _ _ => 0
    sqrt := fun x => x }

/-- A stand-in for the curve fitting, for evaluating the model: the flat
curve. -/
def testSpline : List ℚ → List ℚ → ℚ → ℚ := fun _ _ _ => 0

/-- A tracker of a car planned to stand at `s = 100`, `d = 6`, for evaluating
the model. -/
def stationaryTracker : Tracker ℚ :=
  { previous_path_s := List.replicate 50 [100, 0, 0]
    previous_path_d := List.replicate 50 [6, 0, 0] }

/-- The coefficients of the `d` axis in a first planning cycle from rest at
`d = 0` towards the centre of lane 1 of `testParams`. -/
def firstPolyD : List ℚ := JMT_coeffs 0 0 0 (testParams.get_dcenter 1) 0 0 2

/-- The coefficients of the `s` axis in a first planning cycle from rest at
`s = 0`. -/
def firstPolyS : List ℚ := JMT_coeffs 0 0 0 0 0 0 2

/-- The tracker after a first call of `generate_trajectory_jmt` on the fresh
buffers, with the car at `s = 0`, `d = 0` and target lane 1. -/
def firstPlan : Tracker ℚ :=
  { previous_path_s := jmt_track firstPolyS testParams.param_dt 50
    previous_path_d := jmt_track firstPolyD testParams.param_dt 50 }

/-- The `x` values of the path returned by that first call. -/
def firstPathX : List ℚ :=
  (jmt_points testMap firstPolyS firstPolyD testParams.param_dt 50).map Prod.fst

/-- The `y` values of the path returned by that first call. -/
def firstPathY : List ℚ :=
  (jmt_points testMap firstPolyS firstPolyD testParams.param_dt 50).map Prod.snd

end Generators

section TrackerShape

variable {K : Type} [LinearOrderedField K]

/-- The shape of the tracker buffers: `N` entries each, every entry a triple. -/
def Tracker.shape (N : ℕ) (tr : Tracker K) : Prop :=
  tr.previous_path_s.length = N ∧ tr.previous_path_d.length = N ∧
  (∀ e ∈ tr.previous_path_s, e.length = 3) ∧ (∀ e ∈ tr.previous_path_d, e.length = 3)

end TrackerShape

section SplineFrame

variable {K : Type} [LinearOrderedField K]

/-- Lines 181-240 of `generate_trajectory`: the reference pose, and the five
anchor points in the frame of that pose as they are handed to
`spl.set_points`. -/
def spline_frame (P : Params K) (L : Libm K) (target_lane : Int) (map : Map K)
    (car_x car_y car_yaw car_s : K) (previous_path_x previous_path_y : List K) :
    Except Fault (Anchor K) := do
  let a ← spline_anchor P L car_x car_y car_yaw previous_path_x previous_path_y
  let next_wp0 := map.getXY (car_s + 30) (P.get_dcenter target_lane)
  let next_wp1 := map.getXY (car_s + 60) (P.get_dcenter target_lane)
  let next_wp2 := map.getXY (car_s + 90) (P.get_dcenter target_lane)
  let ptsx := a.ptsx ++ [next_wp0.1] ++ [next_wp1.1] ++ [next_wp2.1]
  let ptsy := a.ptsy ++ [next_wp0.2] ++ [next_wp1.2] ++ [next_wp2.2]
  let pts ← forLoop (spline_transform_body L a.ref_x a.ref_y a.ref_yaw)
    ptsx.length 0 (ptsx, ptsy)
  pure { a with ptsx := pts.1, ptsy := pts.2 }

end SplineFrame

section RunWithBuffers

variable {K : Type} [LinearOrderedField K]

/-- A statement executed while the file-level buffers are `tr`: when it
faults, the fault is reported together with the buffers at that moment. -/
def withTracker {α : Type} (tr : Tracker K) (x : Except Fault α) :
    Except (Fault × Tracker K) α :=
  match x with
  | Except.ok a => Except.ok a
  | Except.error e => Except.error (e, tr)

/-- The loop of `forLoop`, for a body whose faults carry the buffers. -/
def forLoopAt {σ ε : Type} (body : Nat → σ → Except ε σ) : Nat → Nat → σ → Except ε σ
  | 0, _, st => Except.ok st
  | n + 1, i, st =>
    match body i st with
    | Except.ok st1 => forLoopAt body n (i + 1) st1
    | Except.error e => Except.error e

/-- The body of the first loop of `generate_trajectory_jmt` (lines 142-146),
statement by statement, with the buffers as they are at each statement. -/
def jmt_carry_body_at (P : Params K) (previous_path_x previous_path_y : List K)
    (i : Nat) (st : JmtState K) : Except (Fault × Tracker K) (JmtState K) := do
  let prev_size : Int := previous_path_x.length
  let tr0 : Tracker K :=
    { previous_path_s := st.previous_path_s, previous_path_d := st.previous_path_d }
  let es ← withTracker tr0 (vget st.previous_path_s ((P.param_nb_points : Int) - prev_size + i))
  let s1 ← withTracker tr0 (vset st.previous_path_s i es)
  let tr1 : Tracker K := { previous_path_s := s1, previous_path_d := st.previous_path_d }
  let ed ← withTracker tr1 (vget st.previous_path_d ((P.param_nb_points : Int) - prev_size + i))
  let d1 ← withTracker tr1 (vset st.previous_path_d i ed)
  let tr2 : Tracker K := { previous_path_s := s1, previous_path_d := d1 }
  let x ← withTracker tr2 (vget previous_path_x i)
  let y ← withTracker tr2 (vget previous_path_y i)
  pure { st with previous_path_s := s1, previous_path_d := d1,
                 next_x_vals := st.next_x_vals ++ [x],
                 next_y_vals := st.next_y_vals ++ [y] }

/-- The body of the second loop of `generate_trajectory_jmt` (lines 152-168),
with the buffers as they are at each statement. -/
def jmt_sample_body_at (P : Params K) (map : Map K) (poly_s poly_d : List K)
    (i : Nat) (st : JmtState K) : Except (Fault × Tracker K) (JmtState K) := do
  let s := polyeval poly_s st.t
  let s_dot := polyeval_dot poly_s st.t
  let s_ddot := polyeval_ddot poly_s st.t
  let d := polyeval poly_d st.t
  let d_dot := polyeval_dot poly_d st.t
  let d_ddot := polyeval_ddot poly_d st.t
  let tr0 : Tracker K :=
    { previous_path_s := st.previous_path_s, previous_path_d := st.previous_path_d }
  let s1 ← withTracker tr0 (vset st.previous_path_s i [s, s_dot, s_ddot])
  let tr1 : Tracker K := { previous_path_s := s1, previous_path_d := st.previous_path_d }
  let d1 ← withTracker tr1 (vset st.previous_path_d i [d, d_dot, d_ddot])
  let point_xy := map.getXYspline s d
  pure { previous_path_s := s1, previous_path_d := d1,
         next_x_vals := st.next_x_vals ++ [point_xy.1],
         next_y_vals := st.next_y_vals ++ [point_xy.2],
         t := st.t + P.param_dt }

/-- The function `generate_trajectory_jmt`, statement by statement as in
`generate_trajectory_jmt` above, where a call that does not return reports the
fault together with the buffers `previous_path_s`, `previous_path_d` as they
are when it stops. -/
def generate_trajectory_jmt_at (P : Params K) (target_lane : Int) (target_vel : K)
    (map : Map K) (car_x car_y car_yaw car_s car_d : K)
    (previous_path_x previous_path_y : List K) (tr : Tracker K) :
    Except (Fault × Tracker K) (List (List K) × Tracker K) := do
  let prev_size : Nat := previous_path_x.length
  let nb_points_used : Int := (P.param_nb_points : Int) - prev_size
  let last_point : Int := nb_points_used - 1
  let a_s ← withTracker tr (vget2 tr.previous_path_s last_point 0)
  withTracker tr (cassert (car_s = a_s))
  let a_d ← withTracker tr (vget2 tr.previous_path_d last_point 0)
  withTracker tr (cassert (car_d = a_d))
  let T : K := 2
  let si ← withTracker tr (vget2 tr.previous_path_s last_point 0)
  let si_dot ← withTracker tr (vget2 tr.previous_path_s last_point 1)
  let si_ddot ← withTracker tr (vget2 tr.previous_path_s last_point 2)
  let di ← withTracker tr (vget2 tr.previous_path_d last_point 0)
  let di_dot ← withTracker tr (vget2 tr.previous_path_d last_point 1)
  let di_ddot ← withTracker tr (vget2 tr.previous_path_d last_point 2)
  let start_s := [si, si_dot, si_ddot]
  let end_s := [car_s, 0, 0]
  let start_d := [di, di_dot, di_ddot]
  let end_d := [P.get_dcenter target_lane, 0, 0]
  let poly_s ← withTracker tr (JMT start_s end_s T)
  let poly_d ← withTracker tr (JMT start_d end_d T)
  let st0 : JmtState K :=
    { previous_path_s := tr.previous_path_s, previous_path_d := tr.previous_path_d,
      next_x_vals := [], next_y_vals := [], t := 0 }
  let st1 ← forLoopAt (jmt_carry_body_at P previous_path_x previous_path_y) prev_size 0 st0
  let st2 ← forLoopAt (jmt_sample_body_at P map poly_s poly_d)
    (P.param_nb_points - prev_size) prev_size { st1 with t := 0 }
  pure ([st2.next_x_vals, st2.next_y_vals],
        { previous_path_s := st2.previous_path_s, previous_path_d := st2.previous_path_d })

end RunWithBuffers

/-! ## Properties of the polynomial engine -/

section PolynomialFacts

variable {K : Type} [LinearOrderedField K]

theorem JMT_A_det (T : K) : (JMT_A T).det = 2 * T ^ 9 := by
  simp only [JMT_A, Mat3.det]
  ring

/-- On boundary states of three entries `JMT` returns these six coefficients. -/
theorem JMT_triple (s0 v0 a0 s1 v1 a1 T : K) :
    JMT [s0, v0, a0] [s1, v1, a1] T
      = Except.ok
          [s0, v0, a0 / 2,
           ((JMT_A T).inverse.mulVec
              { x0 := s1 - (s0 + v0 * T + (1 / 2) * a0 * T * T)
                x1 := v1 - (v0 + a0 * T)
                x2 := a1 - a0 }).x0,
           ((JMT_A T).inverse.mulVec
              { x0 := s1 - (s0 + v0 * T + (1 / 2) * a0 * T * T)
                x1 := v1 - (v0 + a0 * T)
                x2 := a1 - a0 }).x1,
           ((JMT_A T).inverse.mulVec
              { x0 := s1 - (s0 + v0 * T + (1 / 2) * a0 * T * T)
                x1 := v1 - (v0 + a0 * T)
                x2 := a1 - a0 }).x2] := by
  simp [JMT, vget, bind, Except.bind, pure, Except.pure]

theorem JMT_triple_coeffs (s0 v0 a0 s1 v1 a1 T : K) :
    JMT [s0, v0, a0] [s1, v1, a1] T = Except.ok (JMT_coeffs s0 v0 a0 s1 v1 a1 T) :=
  JMT_triple s0 v0 a0 s1 v1 a1 T

/-- The product of a nonsingular matrix and its `inverse` applied to `b` is `b`:
the closed form used for `A.inverse()` is the inverse. -/
theorem Mat3.mulVec_inverse (A : Mat3 K) (b : Vec3 K) (h : A.det ≠ 0) :
    A.mulVec (A.inverse.mulVec b) = b := by
  have h1 : A.a11 * (A.a22 * A.a33 - A.a23 * A.a32)
    - A.a12 * (A.a21 * A.a33 - A.a23 * A.a31)
    + A.a13 * (A.a21 * A.a32 - A.a22 * A.a31) ≠ 0 := h
  cases b with
  | mk b0 b1 b2 =>
    simp only [Mat3.mulVec, Mat3.inverse, Mat3.det, Vec3.mk.injEq]
    refine ⟨?_, ?_, ?_⟩ <;> field_simp <;> ring

theorem bind_eq_ok {ε α β : Type} (x : Except ε α) (f : α → Except ε β) (b : β) :
    (x >>= f) = Except.ok b ↔ ∃ a, x = Except.ok a ∧ f a = Except.ok b := by
  cases x <;> simp [bind, Except.bind]

/-- The solved coefficients satisfy the three conditions at `t = T`. -/
theorem JMT_solution (b : Vec3 K) (T : K) (hT : T ≠ 0) :
    T ^ 3 * ((JMT_A T).inverse.mulVec b).x0 + T ^ 4 * ((JMT_A T).inverse.mulVec b).x1
        + T ^ 5 * ((JMT_A T).inverse.mulVec b).x2 = b.x0 ∧
    3 * T ^ 2 * ((JMT_A T).inverse.mulVec b).x0 + 4 * T ^ 3 * ((JMT_A T).inverse.mulVec b).x1
        + 5 * T ^ 4 * ((JMT_A T).inverse.mulVec b).x2 = b.x1 ∧
    6 * T * ((JMT_A T).inverse.mulVec b).x0 + 12 * T ^ 2 * ((JMT_A T).inverse.mulVec b).x1
        + 20 * T ^ 3 * ((JMT_A T).inverse.mulVec b).x2 = b.x2 := by
  have hdet : (JMT_A T).det ≠ 0 := by
    rw [JMT_A_det]
    exact mul_ne_zero two_ne_zero (pow_ne_zero _ hT)
  have h := Mat3.mulVec_inverse (JMT_A T) b hdet
  generalize (JMT_A T).inverse.mulVec b = x at h
  subst h
  simp [Mat3.mulVec, JMT_A]

/-- Values of the three evaluators on six coefficients. -/
theorem polyeval_six (c0 c1 c2 c3 c4 c5 t : K) :
    polyeval [c0, c1, c2, c3, c4, c5] t
      = c0 + c1 * t + c2 * t ^ 2 + c3 * t ^ 3 + c4 * t ^ 4 + c5 * t ^ 5 ∧
    polyeval_dot [c0, c1, c2, c3, c4, c5] t
      = c1 + 2 * c2 * t + 3 * c3 * t ^ 2 + 4 * c4 * t ^ 3 + 5 * c5 * t ^ 4 ∧
    polyeval_ddot [c0, c1, c2, c3, c4, c5] t
      = 2 * c2 + 6 * c3 * t + 12 * c4 * t ^ 2 + 20 * c5 * t ^ 3 := by
  refine ⟨?_, ?_, ?_⟩
  · simp [polyeval, List.range']
  · simp [polyeval_dot, List.range']
  · simp [polyeval_ddot, List.range']
    ring

/-- C1 (boundary exactness of `JMT`): for boundary states `[s0, v0, a0]`,
`[s1, v1, a1]` and a duration `T > 0`, the call returns coefficients `c` whose
value, first and second derivative are `(s0, v0, a0)` at `t = 0` and
`(s1, v1, a1)` at `t = T`.  Stated over any linearly ordered field, the reals
included. -/
theorem JMT_boundary_exact (s0 v0 a0 s1 v1 a1 T : K) (hT : 0 < T) :
    ∃ c, JMT [s0, v0, a0] [s1, v1, a1] T = Except.ok c ∧
      (polyeval c 0, polyeval_dot c 0, polyeval_ddot c 0) = (s0, v0, a0) ∧
      (polyeval c T, polyeval_dot c T, polyeval_ddot c T) = (s1, v1, a1) := by
  refine ⟨_, JMT_triple s0 v0 a0 s1 v1 a1 T, ?_, ?_⟩
  · obtain ⟨h0, h1, h2⟩ := polyeval_six s0 v0 (a0 / 2)
      ((JMT_A T).inverse.mulVec
        { x0 := s1 - (s0 + v0 * T + (1 / 2) * a0 * T * T)
          x1 := v1 - (v0 + a0 * T)
          x2 := a1 - a0 }).x0
      ((JMT_A T).inverse.mulVec
        { x0 := s1 - (s0 + v0 * T + (1 / 2) * a0 * T * T)
          x1 := v1 - (v0 + a0 * T)
          x2 := a1 - a0 }).x1
      ((JMT_A T).inverse.mulVec
        { x0 := s1 - (s0 + v0 * T + (1 / 2) * a0 * T * T)
          x1 := v1 - (v0 + a0 * T)
          x2 := a1 - a0 }).x2 0
    rw [h0, h1, h2]
    simp only [Prod.mk.injEq]
    exact ⟨by ring, by ring, by ring⟩
  · obtain ⟨e0, e1, e2⟩ := JMT_solution
      { x0 := s1 - (s0 + v0 * T + (1 / 2) * a0 * T * T)
        x1 := v1 - (v0 + a0 * T)
        x2 := a1 - a0 } T hT.ne.symm
    obtain ⟨h0, h1, h2⟩ := polyeval_six s0 v0 (a0 / 2)
      ((JMT_A T).inverse.mulVec
        { x0 := s1 - (s0 + v0 * T + (1 / 2) * a0 * T * T)
          x1 := v1 - (v0 + a0 * T)
          x2 := a1 - a0 }).x0
      ((JMT_A T).inverse.mulVec
        { x0 := s1 - (s0 + v0 * T + (1 / 2) * a0 * T * T)
          x1 := v1 - (v0 + a0 * T)
          x2 := a1 - a0 }).x1
      ((JMT_A T).inverse.mulVec
        { x0 := s1 - (s0 + v0 * T + (1 / 2) * a0 * T * T)
          x1 := v1 - (v0 + a0 * T)
          x2 := a1 - a0 }).x2 T
    rw [h0, h1, h2]
    simp only [Prod.mk.injEq]
    refine ⟨?_, ?_, ?_⟩
    · linear_combination e0
    · linear_combination e1
    · linear_combination e2

/-- Witness of C1 on rationals: from `[0, 10, 0]` to `[10, 10, 0]` in time 1. -/
theorem JMT_boundary_exact_witness :
    (0 : ℚ) < 1 ∧
    ∃ c, JMT [(0 : ℚ), 10, 0] [10, 10, 0] 1 = Except.ok c ∧
      (polyeval c 0, polyeval_dot c 0, polyeval_ddot c 0) = (0, 10, 0) ∧
      (polyeval c 1, polyeval_dot c 1, polyeval_ddot c 1) = (10, 10, 0) :=
  ⟨by norm_num, JMT_boundary_exact 0 10 0 10 10 0 1 (by norm_num)⟩

end PolynomialFacts

section PolynomialReal

end PolynomialReal

/-! ## Properties of the generators -/

section LoopFacts

variable {K : Type} [LinearOrderedField K]

theorem vget_natCast {α : Type} (v : List α) (i : ℕ) (a : α) (h : v[i]? = some a) :
    vget v (i : Int) = Except.ok a := by
  simp [vget, h]

theorem vget_eq_ok {α : Type} (v : List α) (i : Int) (a : α) :
    vget v i = Except.ok a ↔ 0 ≤ i ∧ v[i.toNat]? = some a := by
  unfold vget
  by_cases hi : 0 ≤ i
  · cases h : v[i.toNat]? <;> simp [hi]
  · simp [hi]

theorem vset_natCast {α : Type} (v : List α) (i : ℕ) (a : α) (h : i < v.length) :
    vset v (i : Int) a = Except.ok (v.set i a) := by
  simp [vset, h]

theorem vset_eq_ok {α : Type} (v : List α) (i : Int) (a : α) (w : List α) :
    vset v i a = Except.ok w ↔ (0 ≤ i ∧ i.toNat < v.length) ∧ w = v.set i.toNat a := by
  unfold vset
  by_cases hi : 0 ≤ i ∧ i.toNat < v.length
  · simp [hi, eq_comm]
  · simp [hi]

theorem exists_getElem? {α : Type} (l : List α) (i : ℕ) (h : i < l.length) :
    ∃ a, l[i]? = some a :=
  ⟨l[i], List.getElem?_eq_getElem h⟩

/-- Total correctness of a loop from an invariant that each iteration
re-establishes. -/
theorem forLoop_total {σ : Type} (body : ℕ → σ → Except Fault σ) (Inv : ℕ → σ → Prop) :
    ∀ (n i0 : ℕ) (st : σ),
      (∀ i s, i0 ≤ i → i < i0 + n → Inv i s → ∃ s1, body i s = Except.ok s1 ∧ Inv (i + 1) s1) →
      Inv i0 st → ∃ s1, forLoop body n i0 st = Except.ok s1 ∧ Inv (i0 + n) s1 := by
  intro n
  induction n with
  | zero => intro i0 st _ h0; exact ⟨st, rfl, h0⟩
  | succ n ih =>
    intro i0 st hstep h0
    obtain ⟨s1, hb, h1⟩ := hstep i0 st (le_refl _) (by omega) h0
    obtain ⟨s2, hl, h2⟩ := ih (i0 + 1) s1
      (fun i s hi hlt hinv => hstep i s (by omega) (by omega) hinv) h1
    refine ⟨s2, ?_, ?_⟩
    · simp only [forLoop, hb, hl]
    · have e : i0 + (n + 1) = i0 + 1 + n := by omega
      rw [e]; exact h2

/-- Partial correctness of a loop: a property kept by every iteration that
returns holds of the state in which the loop returns. -/
theorem forLoop_ok_inv {σ : Type} (body : ℕ → σ → Except Fault σ) (Inv : ℕ → σ → Prop) :
    ∀ (n i0 : ℕ) (st s2 : σ),
      (∀ i s s1, i0 ≤ i → i < i0 + n → Inv i s → body i s = Except.ok s1 → Inv (i + 1) s1) →
      Inv i0 st → forLoop body n i0 st = Except.ok s2 → Inv (i0 + n) s2 := by
  intro n
  induction n with
  | zero =>
    intro i0 st s2 _ h0 hl
    simp only [forLoop, Except.ok.injEq] at hl
    subst hl; exact h0
  | succ n ih =>
    intro i0 st s2 hstep h0 hl
    simp only [forLoop] at hl
    cases hb : body i0 st with
    | error e => rw [hb] at hl; cases hl
    | ok s1 =>
      rw [hb] at hl
      have h1 := hstep i0 st s1 (le_refl _) (by omega) h0 hb
      have h2 := ih (i0 + 1) s1 s2
        (fun i s s' hi hlt hinv hbd => hstep i s s' (by omega) (by omega) hinv hbd) h1 hl
      have e : i0 + (n + 1) = i0 + 1 + n := by omega
      rw [e]; exact h2

end LoopFacts

section CarryLoop

variable {K : Type} [LinearOrderedField K]

/-- One iteration of the first loop of `generate_trajectory_jmt` whose reads and
writes are in range. -/
theorem jmt_carry_body_ok (P : Params K) (px py : List K) (i : ℕ) (st : JmtState K)
    (es ed : List K) (x y : K) (hp : px.length ≤ P.param_nb_points)
    (r1 : st.previous_path_s[P.param_nb_points - px.length + i]? = some es)
    (r2 : st.previous_path_d[P.param_nb_points - px.length + i]? = some ed)
    (r3 : px[i]? = some x) (r4 : py[i]? = some y)
    (w1 : i < st.previous_path_s.length) (w2 : i < st.previous_path_d.length) :
    jmt_carry_body P px py i st
      = Except.ok { st with previous_path_s := st.previous_path_s.set i es,
                            previous_path_d := st.previous_path_d.set i ed,
                            next_x_vals := st.next_x_vals ++ [x],
                            next_y_vals := st.next_y_vals ++ [y] } := by
  have e : (P.param_nb_points : Int) - (px.length : Int) + (i : Int)
      = ((P.param_nb_points - px.length + i : ℕ) : Int) := by omega
  simp only [jmt_carry_body, e, bind, Except.bind, vget_natCast _ _ _ r1,
    vget_natCast _ _ _ r2, vget_natCast _ _ _ r3, vget_natCast _ _ _ r4,
    vset_natCast st.previous_path_s i _ w1,
    vset_natCast st.previous_path_d i _ w2, pure, Except.pure]

/-- The first loop of `generate_trajectory_jmt` on buffers of `param_nb_points`
entries and a previous path of at most that length: it returns, the carried
points are the previous path, and entry `j` of each buffer is the old entry
`param_nb_points - prev_size + j` for `j < prev_size`, the old entry `j`
otherwise. -/
theorem jmt_carry_loop (P : Params K) (px py : List K) (s0 d0 : List (List K)) (t0 : K)
    (hs : s0.length = P.param_nb_points) (hd : d0.length = P.param_nb_points)
    (hp : px.length ≤ P.param_nb_points) (hy : px.length ≤ py.length) :
    ∃ st, forLoop (jmt_carry_body P px py) px.length 0
        { previous_path_s := s0, previous_path_d := d0,
          next_x_vals := [], next_y_vals := [], t := t0 } = Except.ok st ∧
      st.previous_path_s.length = P.param_nb_points ∧
      st.previous_path_d.length = P.param_nb_points ∧
      st.next_x_vals = px ∧ st.next_y_vals = py.take px.length ∧ st.t = t0 ∧
      (∀ j, st.previous_path_s[j]?
          = if j < px.length then s0[P.param_nb_points - px.length + j]? else s0[j]?) ∧
      (∀ j, st.previous_path_d[j]?
          = if j < px.length then d0[P.param_nb_points - px.length + j]? else d0[j]?) := by
  have key := forLoop_total (jmt_carry_body P px py)
    (fun i st => i ≤ px.length ∧
      st.previous_path_s.length = P.param_nb_points ∧
      st.previous_path_d.length = P.param_nb_points ∧
      st.next_x_vals = px.take i ∧ st.next_y_vals = py.take i ∧ st.t = t0 ∧
      (∀ j, st.previous_path_s[j]?
          = if j < i then s0[P.param_nb_points - px.length + j]? else s0[j]?) ∧
      (∀ j, st.previous_path_d[j]?
          = if j < i then d0[P.param_nb_points - px.length + j]? else d0[j]?))
    px.length 0
    { previous_path_s := s0, previous_path_d := d0,
      next_x_vals := [], next_y_vals := [], t := t0 }
    ?_ ?_
  · obtain ⟨st, hl, -, h1, h2, h3, h4, h5, h6, h7⟩ := key
    simp only [Nat.zero_add] at h3 h4 h6 h7
    refine ⟨st, hl, h1, h2, ?_, h4, h5, h6, h7⟩
    rw [h3, List.take_length]
  · intro i st _ hi ⟨_, h1, h2, h3, h4, h5, h6, h7⟩
    simp only [Nat.zero_add] at hi
    have hlt : P.param_nb_points - px.length + i < P.param_nb_points := by omega
    have r1 : st.previous_path_s[P.param_nb_points - px.length + i]?
        = some (s0[P.param_nb_points - px.length + i]) := by
      rw [h6, if_neg (by omega), List.getElem?_eq_getElem]
    have r2 : st.previous_path_d[P.param_nb_points - px.length + i]?
        = some (d0[P.param_nb_points - px.length + i]) := by
      rw [h7, if_neg (by omega), List.getElem?_eq_getElem]
    have r3 : px[i]? = some px[i] := List.getElem?_eq_getElem hi
    have r4 : py[i]? = some (py[i]) := List.getElem?_eq_getElem (by omega)
    refine ⟨_, jmt_carry_body_ok P px py i st _ _ _ _ hp r1 r2 r3 r4 (by omega) (by omega), ?_⟩
    · refine ⟨by omega, by simp [h1], by simp [h2], ?_, ?_, h5, ?_, ?_⟩
      · show st.next_x_vals ++ [px[i]] = List.take (i + 1) px
        rw [h3, List.take_succ, r3]; rfl
      · show st.next_y_vals ++ [py[i]] = List.take (i + 1) py
        rw [h4, List.take_succ, r4]; rfl
      · intro j
        simp only [List.getElem?_set, List.length_set]
        by_cases hj : i = j
        · subst hj
          simp [show i < st.previous_path_s.length by omega]
        · simp only [hj, if_false, h6]
          by_cases hj2 : j < i
          · simp [hj2, show j < i + 1 by omega]
          · simp [hj2, show ¬ j < i + 1 by omega]
      · intro j
        simp only [List.getElem?_set, List.length_set]
        by_cases hj : i = j
        · subst hj
          simp [show i < st.previous_path_d.length by omega]
        · simp only [hj, if_false, h7]
          by_cases hj2 : j < i
          · simp [hj2, show j < i + 1 by omega]
          · simp [hj2, show ¬ j < i + 1 by omega]
  · simp [hs, hd]

end CarryLoop

section SampleLoop

variable {K : Type} [LinearOrderedField K]

/-- One iteration of the second loop of `generate_trajectory_jmt` whose writes
are in range. -/
theorem jmt_sample_body_ok (P : Params K) (map : Map K) (ps pd : List K) (i : ℕ)
    (st : JmtState K)
    (w1 : i < st.previous_path_s.length) (w2 : i < st.previous_path_d.length) :
    jmt_sample_body P map ps pd i st
      = Except.ok
          { previous_path_s := st.previous_path_s.set i
              [polyeval ps st.t, polyeval_dot ps st.t, polyeval_ddot ps st.t],
            previous_path_d := st.previous_path_d.set i
              [polyeval pd st.t, polyeval_dot pd st.t, polyeval_ddot pd st.t],
            next_x_vals := st.next_x_vals
              ++ [(map.getXYspline (polyeval ps st.t) (polyeval pd st.t)).1],
            next_y_vals := st.next_y_vals
              ++ [(map.getXYspline (polyeval ps st.t) (polyeval pd st.t)).2],
            t := st.t + P.param_dt } := by
  simp only [jmt_sample_body, bind, Except.bind, vset_natCast st.previous_path_s i _ w1,
    vset_natCast st.previous_path_d i _ w2, pure, Except.pure]

/-- The second loop of `generate_trajectory_jmt` started at index `p` with
`t = 0` on buffers of `param_nb_points` entries: it returns, sample `k` is taken
at time `k * param_dt`, and it is written to entry `p + k` of the buffers. -/
theorem jmt_sample_loop (P : Params K) (map : Map K) (ps pd : List K)
    (s1 d1 : List (List K)) (nx ny : List K) (p : ℕ)
    (hs : s1.length = P.param_nb_points) (hd : d1.length = P.param_nb_points) :
    ∃ st, forLoop (jmt_sample_body P map ps pd) (P.param_nb_points - p) p
        { previous_path_s := s1, previous_path_d := d1,
          next_x_vals := nx, next_y_vals := ny, t := 0 } = Except.ok st ∧
      st.previous_path_s.length = P.param_nb_points ∧
      st.previous_path_d.length = P.param_nb_points ∧
      st.next_x_vals = nx ++ (List.range (P.param_nb_points - p)).map
        (fun (k : ℕ) => (map.getXYspline (polyeval ps ((k : K) * P.param_dt))
                                   (polyeval pd ((k : K) * P.param_dt))).1) ∧
      st.next_y_vals = ny ++ (List.range (P.param_nb_points - p)).map
        (fun (k : ℕ) => (map.getXYspline (polyeval ps ((k : K) * P.param_dt))
                                   (polyeval pd ((k : K) * P.param_dt))).2) ∧
      (∀ j, st.previous_path_s[j]?
          = if p ≤ j ∧ j < P.param_nb_points then
              some [polyeval ps (((j - p : ℕ) : K) * P.param_dt),
                    polyeval_dot ps (((j - p : ℕ) : K) * P.param_dt),
                    polyeval_ddot ps (((j - p : ℕ) : K) * P.param_dt)]
            else s1[j]?) ∧
      (∀ j, st.previous_path_d[j]?
          = if p ≤ j ∧ j < P.param_nb_points then
              some [polyeval pd (((j - p : ℕ) : K) * P.param_dt),
                    polyeval_dot pd (((j - p : ℕ) : K) * P.param_dt),
                    polyeval_ddot pd (((j - p : ℕ) : K) * P.param_dt)]
            else d1[j]?) := by
  have key := forLoop_total (jmt_sample_body P map ps pd)
    (fun i st => p ≤ i ∧
      st.previous_path_s.length = P.param_nb_points ∧
      st.previous_path_d.length = P.param_nb_points ∧
      st.t = ((i - p : ℕ) : K) * P.param_dt ∧
      st.next_x_vals = nx ++ (List.range (i - p)).map
        (fun (k : ℕ) => (map.getXYspline (polyeval ps ((k : K) * P.param_dt))
                                   (polyeval pd ((k : K) * P.param_dt))).1) ∧
      st.next_y_vals = ny ++ (List.range (i - p)).map
        (fun (k : ℕ) => (map.getXYspline (polyeval ps ((k : K) * P.param_dt))
                                   (polyeval pd ((k : K) * P.param_dt))).2) ∧
      (∀ j, st.previous_path_s[j]?
          = if p ≤ j ∧ j < i then
              some [polyeval ps (((j - p : ℕ) : K) * P.param_dt),
                    polyeval_dot ps (((j - p : ℕ) : K) * P.param_dt),
                    polyeval_ddot ps (((j - p : ℕ) : K) * P.param_dt)]
            else s1[j]?) ∧
      (∀ j, st.previous_path_d[j]?
          = if p ≤ j ∧ j < i then
              some [polyeval pd (((j - p : ℕ) : K) * P.param_dt),
                    polyeval_dot pd (((j - p : ℕ) : K) * P.param_dt),
                    polyeval_ddot pd (((j - p : ℕ) : K) * P.param_dt)]
            else d1[j]?))
    (P.param_nb_points - p) p
    { previous_path_s := s1, previous_path_d := d1,
      next_x_vals := nx, next_y_vals := ny, t := 0 }
    ?_ ?_
  · obtain ⟨st, hl, -, h1, h2, -, h4, h5, h6, h7⟩ := key
    have e : p + (P.param_nb_points - p) - p = P.param_nb_points - p := by omega
    rw [e] at h4 h5
    refine ⟨st, hl, h1, h2, h4, h5, ?_, ?_⟩
    · intro j
      rw [h6 j]
      by_cases hj : p ≤ j ∧ j < P.param_nb_points
      · rw [if_pos hj, if_pos ⟨hj.1, by omega⟩]
      · rw [if_neg hj]
        by_cases hj2 : p ≤ j ∧ j < p + (P.param_nb_points - p)
        · have : s1[j]? = none := List.getElem?_eq_none (by omega)
          exfalso; omega
        · rw [if_neg hj2]
    · intro j
      rw [h7 j]
      by_cases hj : p ≤ j ∧ j < P.param_nb_points
      · rw [if_pos hj, if_pos ⟨hj.1, by omega⟩]
      · rw [if_neg hj]
        by_cases hj2 : p ≤ j ∧ j < p + (P.param_nb_points - p)
        · exfalso; omega
        · rw [if_neg hj2]
  · intro i st hpi hi ⟨_, h1, h2, h3, h4, h5, h6, h7⟩
    have e1 : i + 1 - p = (i - p) + 1 := by omega
    refine ⟨_, jmt_sample_body_ok P map ps pd i st (by omega) (by omega), ?_⟩
    refine ⟨by omega, by simp [h1], by simp [h2], ?_, ?_, ?_, ?_, ?_⟩
    · show st.t + P.param_dt = ((i + 1 - p : ℕ) : K) * P.param_dt
      rw [h3, e1]; push_cast; ring
    · show st.next_x_vals ++ [_] = _
      rw [h4, e1, List.range_succ, List.map_append, h3]
      simp
    · show st.next_y_vals ++ [_] = _
      rw [h5, e1, List.range_succ, List.map_append, h3]
      simp
    · intro j
      simp only [List.getElem?_set]
      by_cases hj : i = j
      · subst hj
        rw [if_pos rfl, if_pos (by omega), if_pos ⟨hpi, by omega⟩, h3]
      · rw [if_neg hj, h6 j]
        by_cases hj2 : p ≤ j ∧ j < i
        · rw [if_pos hj2, if_pos ⟨hj2.1, by omega⟩]
        · rw [if_neg hj2, if_neg (by omega)]
    · intro j
      simp only [List.getElem?_set]
      by_cases hj : i = j
      · subst hj
        rw [if_pos rfl, if_pos (by omega), if_pos ⟨hpi, by omega⟩, h3]
      · rw [if_neg hj, h7 j]
        by_cases hj2 : p ≤ j ∧ j < i
        · rw [if_pos hj2, if_pos ⟨hj2.1, by omega⟩]
        · rw [if_neg hj2, if_neg (by omega)]
  · refine ⟨le_refl _, hs, hd, by simp, by simp, by simp, ?_, ?_⟩
    · intro j; rw [if_neg (by omega)]
    · intro j; rw [if_neg (by omega)]

end SampleLoop

section FrenetGenerator

variable {K : Type} [LinearOrderedField K]

theorem append_track_getElem? {α : Type} (s : List α) (N p : ℕ) (f : ℕ → α)
    (hs : s.length = N) (hp : p ≤ N) (j : ℕ) :
    (s.drop (N - p) ++ (List.range (N - p)).map f)[j]? =
      if p ≤ j ∧ j < N then some (f (j - p))
      else if j < p then s[N - p + j]? else s[j]? := by
  have hl : (s.drop (N - p)).length = p := by simp [hs]; omega
  by_cases h1 : j < p
  · rw [List.getElem?_append_left (by omega), List.getElem?_drop, if_neg (by omega), if_pos h1]
  · rw [List.getElem?_append_right (by omega), hl, if_neg h1]
    by_cases h2 : j < N
    · rw [if_pos ⟨by omega, h2⟩, List.getElem?_map, List.getElem?_range (by omega)]
      rfl
    · rw [if_neg (by omega), List.getElem?_map, List.getElem?_eq_none (by simp; omega),
        List.getElem?_eq_none (by omega)]
      rfl

theorem vget2_natCast (v : List (List K)) (i j : ℕ) (e : List K) (a : K)
    (h1 : v[i]? = some e) (h2 : e[j]? = some a) :
    vget2 v (i : Int) (j : Int) = Except.ok a := by
  simp only [vget2, bind, Except.bind, vget_natCast v i e h1, vget_natCast e j a h2]

/-- What a call of `generate_trajectory_jmt` returns when the buffers have
`param_nb_points` entries, fewer than `param_nb_points` previous points are
passed, the entry at index `param_nb_points - prev_size - 1` is a triple, and
both assertions hold (its
positions are `car_s` and `car_d`). -/
theorem generate_trajectory_jmt_ok (P : Params K) (target_lane : Int) (target_vel : K)
    (map : Map K) (car_x car_y car_yaw car_s car_d : K) (px py : List K) (tr : Tracker K)
    (si_dot si_ddot di_dot di_ddot : K)
    (hs : tr.previous_path_s.length = P.param_nb_points)
    (hd : tr.previous_path_d.length = P.param_nb_points)
    (hp : px.length < P.param_nb_points) (hy : px.length ≤ py.length)
    (gs : tr.previous_path_s[P.param_nb_points - 1 - px.length]? = some [car_s, si_dot, si_ddot])
    (gd : tr.previous_path_d[P.param_nb_points - 1 - px.length]? = some [car_d, di_dot, di_ddot]) :
    generate_trajectory_jmt P target_lane target_vel map car_x car_y car_yaw car_s car_d
        px py tr
      = Except.ok
          ([px ++ (jmt_points map (JMT_coeffs car_s si_dot si_ddot car_s 0 0 2)
                    (JMT_coeffs car_d di_dot di_ddot (P.get_dcenter target_lane) 0 0 2)
                    P.param_dt (P.param_nb_points - px.length)).map Prod.fst,
            py.take px.length
              ++ (jmt_points map (JMT_coeffs car_s si_dot si_ddot car_s 0 0 2)
                    (JMT_coeffs car_d di_dot di_ddot (P.get_dcenter target_lane) 0 0 2)
                    P.param_dt (P.param_nb_points - px.length)).map Prod.snd],
           { previous_path_s :=
               tr.previous_path_s.drop (P.param_nb_points - px.length)
                 ++ jmt_track (JMT_coeffs car_s si_dot si_ddot car_s 0 0 2) P.param_dt
                      (P.param_nb_points - px.length),
             previous_path_d :=
               tr.previous_path_d.drop (P.param_nb_points - px.length)
                 ++ jmt_track (JMT_coeffs car_d di_dot di_ddot (P.get_dcenter target_lane) 0 0 2)
                      P.param_dt (P.param_nb_points - px.length) }) := by
  have hlast : (P.param_nb_points : Int) - ((px.length : ℕ) : Int) - 1
      = ((P.param_nb_points - 1 - px.length : ℕ) : Int) := by omega
  have s0 := vget2_natCast tr.previous_path_s _ 0 _ car_s gs rfl
  have s1 := vget2_natCast tr.previous_path_s _ 1 _ si_dot gs rfl
  have s2 := vget2_natCast tr.previous_path_s _ 2 _ si_ddot gs rfl
  have d0 := vget2_natCast tr.previous_path_d _ 0 _ car_d gd rfl
  have d1 := vget2_natCast tr.previous_path_d _ 1 _ di_dot gd rfl
  have d2 := vget2_natCast tr.previous_path_d _ 2 _ di_ddot gd rfl
  simp only [Nat.cast_zero, Nat.cast_one, Nat.cast_ofNat] at s0 s1 s2 d0 d1 d2
  obtain ⟨st1, hl1, a1, a2, a3, a4, a5, a6, a7⟩ :=
    jmt_carry_loop P px py tr.previous_path_s tr.previous_path_d 0 hs hd (by omega) hy
  obtain ⟨st2, hl2, b1, b2, b3, b4, b6, b7⟩ :=
    jmt_sample_loop P map (JMT_coeffs car_s si_dot si_ddot car_s 0 0 2)
      (JMT_coeffs car_d di_dot di_ddot (P.get_dcenter target_lane) 0 0 2)
      st1.previous_path_s st1.previous_path_d st1.next_x_vals st1.next_y_vals px.length a1 a2
  simp only [generate_trajectory_jmt, hlast, s0, s1, s2, d0, d1, d2, cassert,
    bind, Except.bind, if_true, JMT_triple_coeffs, hl1, hl2, pure, Except.pure]
  have es : st2.previous_path_s
      = tr.previous_path_s.drop (P.param_nb_points - px.length)
          ++ jmt_track (JMT_coeffs car_s si_dot si_ddot car_s 0 0 2) P.param_dt
              (P.param_nb_points - px.length) := by
    apply List.ext_getElem?
    intro j
    rw [jmt_track, append_track_getElem? _ _ _ _ hs (by omega), b6 j, a6 j]
  have ed : st2.previous_path_d
      = tr.previous_path_d.drop (P.param_nb_points - px.length)
          ++ jmt_track (JMT_coeffs car_d di_dot di_ddot (P.get_dcenter target_lane) 0 0 2)
              P.param_dt (P.param_nb_points - px.length) := by
    apply List.ext_getElem?
    intro j
    rw [jmt_track, append_track_getElem? _ _ _ _ hd (by omega), b7 j, a7 j]
  rw [es, ed, b3, b4, a3, a4]
  simp [jmt_points, Function.comp_def]

end FrenetGenerator

section SplineGenerator

variable {K : Type} [LinearOrderedField K]

/-- Lines 187-197: with fewer than two previous points the anchors come from
the pose. -/
theorem spline_anchor_short (P : Params K) (L : Libm K) (car_x car_y car_yaw : K)
    (px py : List K) (h : px.length < 2) :
    spline_anchor P L car_x car_y car_yaw px py
      = Except.ok { ref_x := car_x, ref_y := car_y, ref_yaw := P.deg2rad car_yaw,
                    ptsx := [car_x - L.cos car_yaw, car_x],
                    ptsy := [car_y - L.sin car_yaw, car_y] } := by
  have h1 : ((px.length : ℕ) : Int) < 2 := by omega
  simp only [spline_anchor, if_pos h1, pure, Except.pure]

/-- Lines 198-212: with two previous points or more the anchors are the last
two of them. -/
theorem spline_anchor_long (P : Params K) (L : Libm K) (car_x car_y car_yaw : K)
    (px py : List K) (x1 y1 x0 y0 : K) (h : 2 ≤ px.length)
    (r1 : px[px.length - 1]? = some x1) (r2 : py[px.length - 1]? = some y1)
    (r3 : px[px.length - 2]? = some x0) (r4 : py[px.length - 2]? = some y0) :
    spline_anchor P L car_x car_y car_yaw px py
      = Except.ok { ref_x := x1, ref_y := y1, ref_yaw := L.atan2 (y1 - y0) (x1 - x0),
                    ptsx := [x0, x1], ptsy := [y0, y1] } := by
  have h1 : ¬ ((px.length : ℕ) : Int) < 2 := by omega
  have e1 : ((px.length : ℕ) : Int) - 1 = ((px.length - 1 : ℕ) : Int) := by omega
  have e2 : ((px.length : ℕ) : Int) - 2 = ((px.length - 2 : ℕ) : Int) := by omega
  simp only [spline_anchor, if_neg h1, e1, e2, bind, Except.bind,
    vget_natCast _ _ _ r1, vget_natCast _ _ _ r2, vget_natCast _ _ _ r3,
    vget_natCast _ _ _ r4, pure, Except.pure]

/-- Lines 181-212 return two anchor points when the previous path has as many
`y` as `x` values. -/
theorem spline_anchor_ok (P : Params K) (L : Libm K) (car_x car_y car_yaw : K)
    (px py : List K) (hy : px.length ≤ py.length) :
    ∃ a, spline_anchor P L car_x car_y car_yaw px py = Except.ok a ∧
      a.ptsx.length = 2 ∧ a.ptsy.length = 2 := by
  by_cases h : px.length < 2
  · exact ⟨_, spline_anchor_short P L car_x car_y car_yaw px py h, rfl, rfl⟩
  · obtain ⟨x1, r1⟩ := exists_getElem? px (px.length - 1) (by omega)
    obtain ⟨y1, r2⟩ := exists_getElem? py (px.length - 1) (by omega)
    obtain ⟨x0, r3⟩ := exists_getElem? px (px.length - 2) (by omega)
    obtain ⟨y0, r4⟩ := exists_getElem? py (px.length - 2) (by omega)
    exact ⟨_, spline_anchor_long P L car_x car_y car_yaw px py x1 y1 x0 y0 (by omega)
      r1 r2 r3 r4, rfl, rfl⟩

/-- One iteration of the transform loop whose reads and writes are in range. -/
theorem spline_transform_body_ok (L : Libm K) (ref_x ref_y ref_yaw : K) (i : ℕ)
    (pts : List K × List K) (x y : K) (r1 : pts.1[i]? = some x) (r2 : pts.2[i]? = some y) :
    spline_transform_body L ref_x ref_y ref_yaw i pts
      = Except.ok
          (pts.1.set i ((x - ref_x) * L.cos (0 - ref_yaw) - (y - ref_y) * L.sin (0 - ref_yaw)),
           pts.2.set i ((x - ref_x) * L.sin (0 - ref_yaw) + (y - ref_y) * L.cos (0 - ref_yaw))) := by
  have w1 : i < pts.1.length := by
    by_contra hc
    rw [List.getElem?_eq_none (by omega)] at r1
    cases r1
  have w2 : i < pts.2.length := by
    by_contra hc
    rw [List.getElem?_eq_none (by omega)] at r2
    cases r2
  simp only [spline_transform_body, bind, Except.bind, vget_natCast _ _ _ r1,
    vget_natCast _ _ _ r2, vset_natCast pts.1 i _ w1, vset_natCast pts.2 i _ w2,
    pure, Except.pure]

/-- The transform loop over two lists of the same length returns two lists of
that length. -/
theorem spline_transform_loop (L : Libm K) (ref_x ref_y ref_yaw : K) (ptsx ptsy : List K)
    (h : ptsy.length = ptsx.length) :
    ∃ pts, forLoop (spline_transform_body L ref_x ref_y ref_yaw) ptsx.length 0 (ptsx, ptsy)
        = Except.ok pts ∧
      pts.1.length = ptsx.length ∧ pts.2.length = ptsx.length := by
  have key := forLoop_total (spline_transform_body L ref_x ref_y ref_yaw)
    (fun _ pts => pts.1.length = ptsx.length ∧ pts.2.length = ptsx.length)
    ptsx.length 0 (ptsx, ptsy) ?_ ⟨rfl, h⟩
  · obtain ⟨pts, hl, h1, h2⟩ := key
    exact ⟨pts, hl, h1, h2⟩
  · intro i pts _ hi ⟨h1, h2⟩
    simp only [Nat.zero_add] at hi
    obtain ⟨x, r1⟩ := exists_getElem? pts.1 i (by omega)
    obtain ⟨y, r2⟩ := exists_getElem? pts.2 i (by omega)
    refine ⟨_, spline_transform_body_ok L ref_x ref_y ref_yaw i pts x y r1 r2, ?_, ?_⟩
    · simp [h1]
    · simp [h2]

/-- One iteration of the carry-over loop of `generate_trajectory` whose reads
are in range. -/
theorem spline_carry_body_ok (px py : List K) (i : ℕ) (st : SplineState K) (x y : K)
    (r1 : px[i]? = some x) (r2 : py[i]? = some y) :
    spline_carry_body px py i st
      = Except.ok { st with next_x_vals := st.next_x_vals ++ [x],
                            next_y_vals := st.next_y_vals ++ [y] } := by
  simp only [spline_carry_body, bind, Except.bind, vget_natCast _ _ _ r1,
    vget_natCast _ _ _ r2, pure, Except.pure]

/-- The carry-over loop of `generate_trajectory` copies the previous path. -/
theorem spline_carry_loop (px py : List K) (x0 : K) (hy : px.length ≤ py.length) :
    ∃ st, forLoop (spline_carry_body px py) px.length 0
        { x_add_on := x0, next_x_vals := [], next_y_vals := [] } = Except.ok st ∧
      st.x_add_on = x0 ∧ st.next_x_vals = px ∧ st.next_y_vals = py.take px.length := by
  have key := forLoop_total (spline_carry_body px py)
    (fun i st => st.x_add_on = x0 ∧ st.next_x_vals = px.take i ∧ st.next_y_vals = py.take i)
    px.length 0 { x_add_on := x0, next_x_vals := [], next_y_vals := [] } ?_ ?_
  · obtain ⟨st, hl, h1, h2, h3⟩ := key
    simp only [Nat.zero_add] at h2 h3
    refine ⟨st, hl, h1, ?_, h3⟩
    rw [h2, List.take_length]
  · intro i st _ hi ⟨h1, h2, h3⟩
    simp only [Nat.zero_add] at hi
    obtain ⟨x, r1⟩ := exists_getElem? px i hi
    obtain ⟨y, r2⟩ := exists_getElem? py i (by omega)
    refine ⟨_, spline_carry_body_ok px py i st x y r1 r2, h1, ?_, ?_⟩
    · show st.next_x_vals ++ [x] = List.take (i + 1) px
      rw [h2, List.take_succ, r1]; rfl
    · show st.next_y_vals ++ [y] = List.take (i + 1) py
      rw [h3, List.take_succ, r2]; rfl
  · simp

/-- The resampling loop of `generate_trajectory` returns and appends one point
per iteration. -/
theorem spline_sample_loop (P : Params K) (L : Libm K) (spl : K → K)
    (target_vel target_x target_dist ref_x ref_y ref_yaw : K) (n i0 : ℕ)
    (st : SplineState K) :
    ∃ st2 lx ly, forLoop
        (spline_sample_body P L spl target_vel target_x target_dist ref_x ref_y ref_yaw)
        n i0 st = Except.ok st2 ∧
      st2.next_x_vals = st.next_x_vals ++ lx ∧ st2.next_y_vals = st.next_y_vals ++ ly ∧
      lx.length = n ∧ ly.length = n := by
  have key := forLoop_total
    (spline_sample_body P L spl target_vel target_x target_dist ref_x ref_y ref_yaw)
    (fun i s => ∃ lx ly, s.next_x_vals = st.next_x_vals ++ lx ∧
      s.next_y_vals = st.next_y_vals ++ ly ∧ lx.length = i - i0 ∧ ly.length = i - i0)
    n i0 st ?_ ⟨[], [], by simp, by simp, by simp, by simp⟩
  · obtain ⟨st2, hl, lx, ly, h1, h2, h3, h4⟩ := key
    exact ⟨st2, lx, ly, hl, h1, h2, by omega, by omega⟩
  · intro i s hi _ ⟨lx, ly, h1, h2, h3, h4⟩
    refine ⟨_, rfl,
      lx ++ [(s.x_add_on + target_x / (target_dist / (P.param_dt * P.mph_to_ms target_vel)))
              * L.cos ref_yaw
            - spl (s.x_add_on + target_x / (target_dist / (P.param_dt * P.mph_to_ms target_vel)))
              * L.sin ref_yaw + ref_x],
      ly ++ [(s.x_add_on + target_x / (target_dist / (P.param_dt * P.mph_to_ms target_vel)))
              * L.sin ref_yaw
            + spl (s.x_add_on + target_x / (target_dist / (P.param_dt * P.mph_to_ms target_vel)))
              * L.cos ref_yaw + ref_y], ?_, ?_, ?_, ?_⟩
    · simp only [h1, List.append_assoc]
    · simp only [h2, List.append_assoc]
    · simp only [List.length_append, List.length_singleton, h3]; omega
    · simp only [List.length_append, List.length_singleton, h4]; omega

/-- What `generate_trajectory` returns on a previous path with as many `y` as
`x` values: the call returns, and the path is the previous path followed by
`param_nb_points - prev_size` new points. -/
theorem generate_trajectory_ok (P : Params K) (L : Libm K)
    (set_points : List K → List K → K → K) (target_lane : Int) (target_vel : K)
    (map : Map K) (car_x car_y car_yaw car_s car_d : K) (px py : List K)
    (hy : px.length ≤ py.length) :
    ∃ lx ly, generate_trajectory P L set_points target_lane target_vel map
        car_x car_y car_yaw car_s car_d px py
          = Except.ok [px ++ lx, py.take px.length ++ ly] ∧
      lx.length = P.param_nb_points - px.length ∧
      ly.length = P.param_nb_points - px.length := by
  obtain ⟨a, ha, a1, a2⟩ := spline_anchor_ok P L car_x car_y car_yaw px py hy
  obtain ⟨pts, hpts, -, -⟩ := spline_transform_loop L a.ref_x a.ref_y a.ref_yaw
    (a.ptsx ++ [(map.getXY (car_s + 30) (P.get_dcenter target_lane)).1]
      ++ [(map.getXY (car_s + 60) (P.get_dcenter target_lane)).1]
      ++ [(map.getXY (car_s + 90) (P.get_dcenter target_lane)).1])
    (a.ptsy ++ [(map.getXY (car_s + 30) (P.get_dcenter target_lane)).2]
      ++ [(map.getXY (car_s + 60) (P.get_dcenter target_lane)).2]
      ++ [(map.getXY (car_s + 90) (P.get_dcenter target_lane)).2])
    (by simp [a1, a2])
  obtain ⟨st1, hl1, -, c2, c3⟩ := spline_carry_loop px py 0 hy
  obtain ⟨st2, lx, ly, hl2, d1, d2, d3, d4⟩ := spline_sample_loop P L
    (set_points pts.1 pts.2) target_vel 30
    (L.sqrt (30 * 30 + set_points pts.1 pts.2 30 * set_points pts.1 pts.2 30))
    a.ref_x a.ref_y a.ref_yaw (P.param_nb_points - px.length) 1 st1
  refine ⟨lx, ly, ?_, d3, d4⟩
  simp only [generate_trajectory, ha, hpts, hl1, hl2, bind, Except.bind, pure, Except.pure,
    d1, d2, c2, c3]

end SplineGenerator

section CarryOver

variable {K : Type} [LinearOrderedField K]

theorem take_succ_of_getElem? {α : Type} (l : List α) (i : ℕ) (a : α) (h : l[i]? = some a) :
    l.take (i + 1) = l.take i ++ [a] := by
  rw [List.take_succ, h]; rfl

theorem lt_length_of_getElem? {α : Type} (l : List α) (i : ℕ) (a : α) (h : l[i]? = some a) :
    i < l.length := by
  by_contra hc
  rw [List.getElem?_eq_none (by omega)] at h
  cases h

/-- Whenever the first loop of `generate_trajectory_jmt` returns, it has
appended the previous points `0 .. n-1` to the output lists. -/
theorem jmt_carry_loop_returns (P : Params K) (px py : List K) (n : ℕ)
    (st0 st1 : JmtState K)
    (h : forLoop (jmt_carry_body P px py) n 0 st0 = Except.ok st1) :
    st1.next_x_vals = st0.next_x_vals ++ px.take n ∧
    st1.next_y_vals = st0.next_y_vals ++ py.take n ∧ n ≤ px.length ∧ n ≤ py.length := by
  have key := forLoop_ok_inv (jmt_carry_body P px py)
    (fun i st => st.next_x_vals = st0.next_x_vals ++ px.take i ∧
      st.next_y_vals = st0.next_y_vals ++ py.take i ∧ i ≤ px.length ∧ i ≤ py.length)
    n 0 st0 st1 ?_ (by simp) h
  · simpa using key
  · intro i s s1 _ _ ⟨h1, h2, _, _⟩ hb
    simp only [jmt_carry_body, bind_eq_ok] at hb
    obtain ⟨_, _, _, _, _, _, _, _, x, hx, y, hy, hb⟩ := hb
    simp only [pure, Except.pure, Except.ok.injEq] at hb
    rw [vget_eq_ok] at hx hy
    simp only [Int.toNat_ofNat] at hx hy
    have lx := lt_length_of_getElem? px i x hx.2
    have ly := lt_length_of_getElem? py i y hy.2
    subst hb
    refine ⟨?_, ?_, by omega, by omega⟩
    · show s.next_x_vals ++ [x] = _
      rw [h1, take_succ_of_getElem? px i x hx.2, List.append_assoc]
    · show s.next_y_vals ++ [y] = _
      rw [h2, take_succ_of_getElem? py i y hy.2, List.append_assoc]

/-- Whenever the second loop of `generate_trajectory_jmt` returns, the output
lists it started from are the beginning of the output lists it ends with. -/
theorem jmt_sample_loop_returns (P : Params K) (map : Map K) (ps pd : List K) (n i0 : ℕ)
    (st1 st2 : JmtState K)
    (h : forLoop (jmt_sample_body P map ps pd) n i0 st1 = Except.ok st2) :
    ∃ lx ly, st2.next_x_vals = st1.next_x_vals ++ lx ∧
      st2.next_y_vals = st1.next_y_vals ++ ly := by
  have key := forLoop_ok_inv (jmt_sample_body P map ps pd)
    (fun _ st => ∃ lx ly, st.next_x_vals = st1.next_x_vals ++ lx ∧
      st.next_y_vals = st1.next_y_vals ++ ly)
    n i0 st1 st2 ?_ ⟨[], [], by simp, by simp⟩ h
  · exact key
  · intro i s s1 _ _ ⟨lx, ly, h1, h2⟩ hb
    simp only [jmt_sample_body, bind_eq_ok] at hb
    obtain ⟨_, _, _, _, hb⟩ := hb
    simp only [pure, Except.pure, Except.ok.injEq] at hb
    subst hb
    exact ⟨lx ++ [(map.getXYspline (polyeval ps s.t) (polyeval pd s.t)).1],
      ly ++ [(map.getXYspline (polyeval ps s.t) (polyeval pd s.t)).2],
      by simp only [h1, List.append_assoc], by simp only [h2, List.append_assoc]⟩

/-- Whenever `generate_trajectory_jmt` returns, its two output lists begin with
the previous path. -/
theorem generate_trajectory_jmt_returns (P : Params K) (target_lane : Int) (target_vel : K)
    (map : Map K) (car_x car_y car_yaw car_s car_d : K) (px py : List K) (tr : Tracker K)
    (out : List (List K)) (tr1 : Tracker K)
    (h : generate_trajectory_jmt P target_lane target_vel map car_x car_y car_yaw car_s car_d
        px py tr = Except.ok (out, tr1)) :
    ∃ lx ly, out = [px ++ lx, py.take px.length ++ ly] ∧ px.length ≤ py.length := by
  simp only [generate_trajectory_jmt, bind_eq_ok] at h
  obtain ⟨_, _, _, _, _, _, _, _, _, _, _, _, _, _, _, _, _, _, _, _, ps, _, pd, _,
    st1, h1, st2, h2, h⟩ := h
  simp only [pure, Except.pure, Except.ok.injEq, Prod.mk.injEq] at h
  obtain ⟨a1, a2, -, a4⟩ := jmt_carry_loop_returns P px py px.length _ st1 h1
  obtain ⟨lx, ly, b1, b2⟩ := jmt_sample_loop_returns P map ps pd _ _ _ st2 h2
  refine ⟨lx, ly, ?_, a4⟩
  rw [← h.1, b1, b2]
  simp only [a1, a2, List.nil_append, List.take_length]

/-- Whenever the carry-over loop of `generate_trajectory` returns, it has
appended the previous points `0 .. n-1` to the output lists. -/
theorem spline_carry_loop_returns (px py : List K) (n : ℕ) (st0 st1 : SplineState K)
    (h : forLoop (spline_carry_body px py) n 0 st0 = Except.ok st1) :
    st1.next_x_vals = st0.next_x_vals ++ px.take n ∧
    st1.next_y_vals = st0.next_y_vals ++ py.take n ∧ n ≤ px.length ∧ n ≤ py.length := by
  have key := forLoop_ok_inv (spline_carry_body px py)
    (fun i st => st.next_x_vals = st0.next_x_vals ++ px.take i ∧
      st.next_y_vals = st0.next_y_vals ++ py.take i ∧ i ≤ px.length ∧ i ≤ py.length)
    n 0 st0 st1 ?_ (by simp) h
  · simpa using key
  · intro i s s1 _ _ ⟨h1, h2, _, _⟩ hb
    simp only [spline_carry_body, bind_eq_ok] at hb
    obtain ⟨x, hx, y, hy, hb⟩ := hb
    simp only [pure, Except.pure, Except.ok.injEq] at hb
    rw [vget_eq_ok] at hx hy
    simp only [Int.toNat_ofNat] at hx hy
    have lx := lt_length_of_getElem? px i x hx.2
    have ly := lt_length_of_getElem? py i y hy.2
    subst hb
    refine ⟨?_, ?_, by omega, by omega⟩
    · show s.next_x_vals ++ [x] = _
      rw [h1, take_succ_of_getElem? px i x hx.2, List.append_assoc]
    · show s.next_y_vals ++ [y] = _
      rw [h2, take_succ_of_getElem? py i y hy.2, List.append_assoc]

/-- Whenever `generate_trajectory` returns, its two output lists begin with the
previous path. -/
theorem generate_trajectory_returns (P : Params K) (L : Libm K)
    (set_points : List K → List K → K → K) (target_lane : Int) (target_vel : K)
    (map : Map K) (car_x car_y car_yaw car_s car_d : K) (px py : List K)
    (out : List (List K))
    (h : generate_trajectory P L set_points target_lane target_vel map
        car_x car_y car_yaw car_s car_d px py = Except.ok out) :
    ∃ lx ly, out = [px ++ lx, py.take px.length ++ ly] ∧ px.length ≤ py.length := by
  simp only [generate_trajectory, bind_eq_ok] at h
  obtain ⟨a, _, pts, _, st1, h1, st2, h2, h⟩ := h
  simp only [pure, Except.pure, Except.ok.injEq] at h
  obtain ⟨a1, a2, -, a4⟩ := spline_carry_loop_returns px py px.length _ st1 h1
  obtain ⟨_, lx, ly, h3, b1, b2, -, -⟩ := spline_sample_loop P L (set_points pts.1 pts.2)
    target_vel 30
    (L.sqrt (30 * 30 + set_points pts.1 pts.2 30 * set_points pts.1 pts.2 30))
    a.ref_x a.ref_y a.ref_yaw (P.param_nb_points - px.length) 1 st1
  rw [h2] at h3
  simp only [Except.ok.injEq] at h3
  subst h3
  refine ⟨lx, ly, ?_, a4⟩
  rw [← h, b1, b2]
  simp only [a1, a2, List.nil_append, List.take_length]

end CarryOver

section FrenetFaults

variable {K : Type} [LinearOrderedField K]

/-- The first assertion: when the tracked `s` position at index
`param_nb_points - prev_size - 1` differs from `car_s`, the call aborts. -/
theorem generate_trajectory_jmt_assert_s (P : Params K) (target_lane : Int) (target_vel : K)
    (map : Map K) (car_x car_y car_yaw car_s car_d : K) (px py : List K) (tr : Tracker K)
    (es : List K) (a : K) (hp : px.length < P.param_nb_points)
    (gs : tr.previous_path_s[P.param_nb_points - 1 - px.length]? = some es)
    (h0 : es[0]? = some a) (hne : car_s ≠ a) :
    generate_trajectory_jmt P target_lane target_vel map car_x car_y car_yaw car_s car_d
        px py tr = Except.error Fault.assertion := by
  have hlast : (P.param_nb_points : Int) - ((px.length : ℕ) : Int) - 1
      = ((P.param_nb_points - 1 - px.length : ℕ) : Int) := by omega
  have s0 := vget2_natCast tr.previous_path_s _ 0 _ a gs h0
  simp only [Nat.cast_zero] at s0
  simp only [generate_trajectory_jmt, hlast, s0, cassert, bind, Except.bind, if_neg hne]

/-- The second assertion: when the tracked `s` position is `car_s` and the
tracked `d` position at the same index differs from `car_d`, the call aborts. -/
theorem generate_trajectory_jmt_assert_d (P : Params K) (target_lane : Int) (target_vel : K)
    (map : Map K) (car_x car_y car_yaw car_s car_d : K) (px py : List K) (tr : Tracker K)
    (es ed : List K) (b : K) (hp : px.length < P.param_nb_points)
    (gs : tr.previous_path_s[P.param_nb_points - 1 - px.length]? = some es)
    (h0 : es[0]? = some car_s)
    (gd : tr.previous_path_d[P.param_nb_points - 1 - px.length]? = some ed)
    (h1 : ed[0]? = some b) (hne : car_d ≠ b) :
    generate_trajectory_jmt P target_lane target_vel map car_x car_y car_yaw car_s car_d
        px py tr = Except.error Fault.assertion := by
  have hlast : (P.param_nb_points : Int) - ((px.length : ℕ) : Int) - 1
      = ((P.param_nb_points - 1 - px.length : ℕ) : Int) := by omega
  have s0 := vget2_natCast tr.previous_path_s _ 0 _ car_s gs h0
  have d0 := vget2_natCast tr.previous_path_d _ 0 _ b gd h1
  simp only [Nat.cast_zero] at s0 d0
  simp only [generate_trajectory_jmt, hlast, s0, d0, cassert, bind, Except.bind, if_neg hne,
    if_true]

/-- With `param_nb_points` previous points or more, the index
`param_nb_points - prev_size - 1` of the first assertion is negative: the read
is outside the buffer. -/
theorem generate_trajectory_jmt_full_path (P : Params K) (target_lane : Int) (target_vel : K)
    (map : Map K) (car_x car_y car_yaw car_s car_d : K) (px py : List K) (tr : Tracker K)
    (hp : P.param_nb_points ≤ px.length) :
    generate_trajectory_jmt P target_lane target_vel map car_x car_y car_yaw car_s car_d
        px py tr = Except.error Fault.outOfBounds := by
  have hneg : ¬ (0 : Int) ≤ (P.param_nb_points : Int) - ((px.length : ℕ) : Int) - 1 := by omega
  simp only [generate_trajectory_jmt, vget2, vget, if_neg hneg, bind, Except.bind]

/-- On buffers that are not empty `JMT_init` returns, having overwritten
entry 0 of each. -/
theorem JMT_init_ok (s0 d0 : K) (tr : Tracker K)
    (hs : 0 < tr.previous_path_s.length) (hd : 0 < tr.previous_path_d.length) :
    JMT_init s0 d0 tr
      = Except.ok { previous_path_s := tr.previous_path_s.set 0 [s0, 0, 0],
                    previous_path_d := tr.previous_path_d.set 0 [d0, 0, 0] } := by
  have w1 := vset_natCast tr.previous_path_s 0 [s0, 0, 0] hs
  have w2 := vset_natCast tr.previous_path_d 0 [d0, 0, 0] hd
  simp only [Nat.cast_zero] at w1 w2
  simp only [JMT_init, w1, w2, bind, Except.bind, pure, Except.pure]

theorem JMT_coeffs_at_zero (s0 v0 a0 s1 v1 a1 T : K) :
    polyeval (JMT_coeffs s0 v0 a0 s1 v1 a1 T) 0 = s0 ∧
    polyeval_dot (JMT_coeffs s0 v0 a0 s1 v1 a1 T) 0 = v0 ∧
    polyeval_ddot (JMT_coeffs s0 v0 a0 s1 v1 a1 T) 0 = a0 := by
  simp only [JMT_coeffs]
  obtain ⟨h0, h1, h2⟩ := polyeval_six s0 v0 (a0 / 2)
    ((JMT_A T).inverse.mulVec
      { x0 := s1 - (s0 + v0 * T + (1 / 2) * a0 * T * T)
        x1 := v1 - (v0 + a0 * T)
        x2 := a1 - a0 }).x0
    ((JMT_A T).inverse.mulVec
      { x0 := s1 - (s0 + v0 * T + (1 / 2) * a0 * T * T)
        x1 := v1 - (v0 + a0 * T)
        x2 := a1 - a0 }).x1
    ((JMT_A T).inverse.mulVec
      { x0 := s1 - (s0 + v0 * T + (1 / 2) * a0 * T * T)
        x1 := v1 - (v0 + a0 * T)
        x2 := a1 - a0 }).x2 0
  rw [h0, h1, h2]
  exact ⟨by ring, by ring, by ring⟩

/-- Entry `k` of the sampled triples. -/
theorem jmt_track_getElem? (c : List K) (dt : K) (n k : ℕ) (h : k < n) :
    (jmt_track c dt n)[k]?
      = some [polyeval c ((k : K) * dt), polyeval_dot c ((k : K) * dt),
              polyeval_ddot c ((k : K) * dt)] := by
  simp only [jmt_track, List.getElem?_map, List.getElem?_range h, Option.map_some']

theorem jmt_track_length (c : List K) (dt : K) (n : ℕ) : (jmt_track c dt n).length = n := by
  simp [jmt_track]

theorem jmt_points_length (map : Map K) (ps pd : List K) (dt : K) (n : ℕ) :
    (jmt_points map ps pd dt n).length = n := by
  simp [jmt_points]

end FrenetFaults

/-! ## The claims about the generators -/

section GeneratorClaims

variable {K : Type} [LinearOrderedField K]

/-- C4, as amended (fixed output length of the Frenet generator): when the
buffers have `N = param_nb_points` entries, the previous path has `p < N` points
with as many `y` as `x` values, and the tracked triple at index `N - p - 1` has
the positions `car_s` and `car_d` (both assertions hold),
`generate_trajectory_jmt` returns two lists, each of exactly `N` entries. -/
theorem generate_trajectory_jmt_length (P : Params K) (target_lane : Int) (target_vel : K)
    (map : Map K) (car_x car_y car_yaw car_s car_d : K) (px py : List K) (tr : Tracker K)
    (si_dot si_ddot di_dot di_ddot : K)
    (hs : tr.previous_path_s.length = P.param_nb_points)
    (hd : tr.previous_path_d.length = P.param_nb_points)
    (hp : px.length < P.param_nb_points) (hy : py.length = px.length)
    (gs : tr.previous_path_s[P.param_nb_points - 1 - px.length]?
      = some [car_s, si_dot, si_ddot])
    (gd : tr.previous_path_d[P.param_nb_points - 1 - px.length]?
      = some [car_d, di_dot, di_ddot]) :
    ∃ xs ys tr1,
      generate_trajectory_jmt P target_lane target_vel map car_x car_y car_yaw car_s car_d
        px py tr = Except.ok ([xs, ys], tr1) ∧
      xs.length = P.param_nb_points ∧ ys.length = P.param_nb_points := by
  refine ⟨_, _, _, generate_trajectory_jmt_ok P target_lane target_vel map car_x car_y car_yaw
    car_s car_d px py tr si_dot si_ddot di_dot di_ddot hs hd hp (by omega) gs gd, ?_, ?_⟩
  · simp only [List.length_append, List.length_map, jmt_points_length]
    omega
  · simp only [List.length_append, List.length_map, jmt_points_length, List.length_take]
    omega

/-- Witness of C4 as amended: 47 previous points, the car on its tracked
position. -/
theorem generate_trajectory_jmt_length_witness :
    (List.replicate 47 (0 : ℚ)).length < testParams.param_nb_points ∧
    ∃ xs ys tr1,
      generate_trajectory_jmt testParams 1 49 testMap 0 0 0 100 6
        (List.replicate 47 0) (List.replicate 47 0) stationaryTracker
          = Except.ok ([xs, ys], tr1) ∧
      xs.length = testParams.param_nb_points ∧ ys.length = testParams.param_nb_points :=
  ⟨by decide,
   generate_trajectory_jmt_length testParams 1 49 testMap 0 0 0 100 6
    (List.replicate 47 0) (List.replicate 47 0) stationaryTracker 0 0 0 0
    rfl rfl (by decide) rfl rfl rfl⟩

/-- Counterexample to C4 as stated: with 47 previous points (`x` and `y` of the
same length, not more than `N = 50`) and the car reported at `s = 101` while the
tracked position is 100, the call aborts on its first assertion and returns no
list. -/
theorem generate_trajectory_jmt_length_counterexample :
    (List.replicate 47 (0 : ℚ)).length = (List.replicate 47 (0 : ℚ)).length ∧
    (List.replicate 47 (0 : ℚ)).length ≤ testParams.param_nb_points ∧
    generate_trajectory_jmt testParams 1 49 testMap 0 0 0 101 6
        (List.replicate 47 0) (List.replicate 47 0) stationaryTracker
      = Except.error Fault.assertion ∧
    ¬ ∃ xs ys tr1,
      generate_trajectory_jmt testParams 1 49 testMap 0 0 0 101 6
        (List.replicate 47 0) (List.replicate 47 0) stationaryTracker
          = Except.ok ([xs, ys], tr1) ∧
      xs.length = testParams.param_nb_points ∧ ys.length = testParams.param_nb_points := by
  have h := generate_trajectory_jmt_assert_s testParams 1 49 testMap 0 0 0 101 6
    (List.replicate 47 0) (List.replicate 47 0) stationaryTracker [100, 0, 0] 100
    (by decide) rfl rfl (by norm_num)
  refine ⟨rfl, by decide, h, ?_⟩
  rintro ⟨xs, ys, tr1, h1, -, -⟩
  rw [h] at h1
  cases h1

/-- C6 (carry-over identity): for each of the two generators, whenever a call
returns, the output is a pair of lists `x_out`, `y_out` and for every index
`i < prev_size` the entries `x_out[i]`, `y_out[i]` exist and are
`previous_path_x[i]`, `previous_path_y[i]`. -/
theorem carry_over_identity (P : Params K) (L : Libm K)
    (set_points : List K → List K → K → K) (target_lane : Int) (target_vel : K)
    (map : Map K) (car_x car_y car_yaw car_s car_d : K) (px py : List K) (tr : Tracker K) :
    (∀ out tr1,
      generate_trajectory_jmt P target_lane target_vel map car_x car_y car_yaw car_s car_d
          px py tr = Except.ok (out, tr1) →
      ∃ xs ys, out = [xs, ys] ∧
        ∀ i, i < px.length →
          i < py.length ∧ xs[i]? = px[i]? ∧ ys[i]? = py[i]? ∧ (xs[i]?).isSome ∧ (ys[i]?).isSome) ∧
    (∀ out,
      generate_trajectory P L set_points target_lane target_vel map
          car_x car_y car_yaw car_s car_d px py = Except.ok out →
      ∃ xs ys, out = [xs, ys] ∧
        ∀ i, i < px.length →
          i < py.length ∧ xs[i]? = px[i]? ∧ ys[i]? = py[i]? ∧ (xs[i]?).isSome ∧ (ys[i]?).isSome) := by
  have aux : ∀ (lx ly : List K), px.length ≤ py.length → ∀ i, i < px.length →
      i < py.length ∧ (px ++ lx)[i]? = px[i]? ∧ (py.take px.length ++ ly)[i]? = py[i]? ∧
        ((px ++ lx)[i]?).isSome ∧ ((py.take px.length ++ ly)[i]?).isSome := by
    intro lx ly hle i hi
    have e1 : (px ++ lx)[i]? = px[i]? := List.getElem?_append_left hi
    have e2 : (py.take px.length ++ ly)[i]? = py[i]? := by
      rw [List.getElem?_append_left (by simp; omega), List.getElem?_take_of_lt hi]
    refine ⟨by omega, e1, e2, ?_, ?_⟩
    · rw [e1, List.getElem?_eq_getElem hi]; rfl
    · rw [e2, List.getElem?_eq_getElem (by omega)]; rfl
  constructor
  · intro out tr1 h
    obtain ⟨lx, ly, ho, hle⟩ := generate_trajectory_jmt_returns P target_lane target_vel map
      car_x car_y car_yaw car_s car_d px py tr out tr1 h
    exact ⟨_, _, ho, aux lx ly hle⟩
  · intro out h
    obtain ⟨lx, ly, ho, hle⟩ := generate_trajectory_returns P L set_points target_lane
      target_vel map car_x car_y car_yaw car_s car_d px py out h
    exact ⟨_, _, ho, aux lx ly hle⟩

/-- Witness of C6: three previous points, the car on its tracked position;
both generators return and carry the three points over. -/
theorem carry_over_identity_witness :
    (∃ out tr1,
      generate_trajectory_jmt testParams 1 49 testMap 3 6 0 100 6 [1, 2, 3] [6, 6, 6]
        stationaryTracker = Except.ok (out, tr1) ∧
      ∃ xs ys, out = [xs, ys] ∧
        ∀ i, i < ([1, 2, 3] : List ℚ).length →
          i < ([6, 6, 6] : List ℚ).length ∧ xs[i]? = ([1, 2, 3] : List ℚ)[i]? ∧
            ys[i]? = ([6, 6, 6] : List ℚ)[i]? ∧ (xs[i]?).isSome ∧ (ys[i]?).isSome) ∧
    (∃ out,
      generate_trajectory testParams testLibm testSpline 1 49 testMap 3 6 0 100 6
        [1, 2, 3] [6, 6, 6] = Except.ok out ∧
      ∃ xs ys, out = [xs, ys] ∧
        ∀ i, i < ([1, 2, 3] : List ℚ).length →
          i < ([6, 6, 6] : List ℚ).length ∧ xs[i]? = ([1, 2, 3] : List ℚ)[i]? ∧
            ys[i]? = ([6, 6, 6] : List ℚ)[i]? ∧ (xs[i]?).isSome ∧ (ys[i]?).isSome) := by
  have h1 := generate_trajectory_jmt_ok testParams 1 49 testMap 3 6 0 100 6 [1, 2, 3] [6, 6, 6]
    stationaryTracker 0 0 0 0 rfl rfl (by decide) (by decide) rfl rfl
  obtain ⟨lx, ly, h2, -, -⟩ := generate_trajectory_ok testParams testLibm testSpline 1 49
    testMap 3 6 0 100 6 [1, 2, 3] [6, 6, 6] (by decide)
  exact ⟨⟨_, _, h1,
      (carry_over_identity testParams testLibm testSpline 1 49 testMap 3 6 0 100 6
        [1, 2, 3] [6, 6, 6] stationaryTracker).1 _ _ h1⟩,
    ⟨_, h2,
      (carry_over_identity testParams testLibm testSpline 1 49 testMap 3 6 0 100 6
        [1, 2, 3] [6, 6, 6] stationaryTracker).2 _ h2⟩⟩

/-- C7 (continuity across cycles in the Frenet generator): for a call whose
reported `(car_s, car_d)` are the tracked positions at the graft index
`N - prev_size - 1`, the call returns, and the new polynomials at `t = 0`, which
is the triple written to the tracker at index `prev_size`, have position,
velocity and acceleration equal, on the `s` and on the `d` axis, to the tracked
triple of the old plan at the graft index. -/
theorem jmt_graft_continuity (P : Params K) (target_lane : Int) (target_vel : K)
    (map : Map K) (car_x car_y car_yaw car_s car_d : K) (px py : List K) (tr : Tracker K)
    (si_dot si_ddot di_dot di_ddot : K)
    (hs : tr.previous_path_s.length = P.param_nb_points)
    (hd : tr.previous_path_d.length = P.param_nb_points)
    (hp : px.length < P.param_nb_points) (hy : py.length = px.length)
    (gs : tr.previous_path_s[P.param_nb_points - 1 - px.length]?
      = some [car_s, si_dot, si_ddot])
    (gd : tr.previous_path_d[P.param_nb_points - 1 - px.length]?
      = some [car_d, di_dot, di_ddot]) :
    ∃ poly_s poly_d out tr1,
      JMT [car_s, si_dot, si_ddot] [car_s, 0, 0] 2 = Except.ok poly_s ∧
      JMT [car_d, di_dot, di_ddot] [P.get_dcenter target_lane, 0, 0] 2 = Except.ok poly_d ∧
      generate_trajectory_jmt P target_lane target_vel map car_x car_y car_yaw car_s car_d
        px py tr = Except.ok (out, tr1) ∧
      [polyeval poly_s 0, polyeval_dot poly_s 0, polyeval_ddot poly_s 0]
        = [car_s, si_dot, si_ddot] ∧
      [polyeval poly_d 0, polyeval_dot poly_d 0, polyeval_ddot poly_d 0]
        = [car_d, di_dot, di_ddot] ∧
      tr1.previous_path_s[px.length]?
        = some [polyeval poly_s 0, polyeval_dot poly_s 0, polyeval_ddot poly_s 0] ∧
      tr1.previous_path_d[px.length]?
        = some [polyeval poly_d 0, polyeval_dot poly_d 0, polyeval_ddot poly_d 0] ∧
      tr1.previous_path_s[px.length]?
        = tr.previous_path_s[P.param_nb_points - 1 - px.length]? ∧
      tr1.previous_path_d[px.length]?
        = tr.previous_path_d[P.param_nb_points - 1 - px.length]? := by
  obtain ⟨s0, s1, s2⟩ := JMT_coeffs_at_zero car_s si_dot si_ddot car_s 0 0 2
  obtain ⟨d0, d1, d2⟩ := JMT_coeffs_at_zero car_d di_dot di_ddot (P.get_dcenter target_lane) 0 0 2
  have hl1 : (tr.previous_path_s.drop (P.param_nb_points - px.length)).length = px.length := by
    simp only [List.length_drop, hs]; omega
  have hl2 : (tr.previous_path_d.drop (P.param_nb_points - px.length)).length = px.length := by
    simp only [List.length_drop, hd]; omega
  have e1 : (tr.previous_path_s.drop (P.param_nb_points - px.length)
      ++ jmt_track (JMT_coeffs car_s si_dot si_ddot car_s 0 0 2) P.param_dt
          (P.param_nb_points - px.length))[px.length]?
      = some [car_s, si_dot, si_ddot] := by
    rw [List.getElem?_append_right (by omega), hl1, Nat.sub_self,
      jmt_track_getElem? _ _ _ 0 (by omega)]
    simp only [Nat.cast_zero, zero_mul, s0, s1, s2]
  have e2 : (tr.previous_path_d.drop (P.param_nb_points - px.length)
      ++ jmt_track (JMT_coeffs car_d di_dot di_ddot (P.get_dcenter target_lane) 0 0 2)
          P.param_dt (P.param_nb_points - px.length))[px.length]?
      = some [car_d, di_dot, di_ddot] := by
    rw [List.getElem?_append_right (by omega), hl2, Nat.sub_self,
      jmt_track_getElem? _ _ _ 0 (by omega)]
    simp only [Nat.cast_zero, zero_mul, d0, d1, d2]
  refine ⟨_, _, _, _, JMT_triple_coeffs _ _ _ _ _ _ _, JMT_triple_coeffs _ _ _ _ _ _ _,
    generate_trajectory_jmt_ok P target_lane target_vel map car_x car_y car_yaw
      car_s car_d px py tr si_dot si_ddot di_dot di_ddot hs hd hp (by omega) gs gd,
    ?_, ?_, ?_, ?_, ?_, ?_⟩
  · rw [s0, s1, s2]
  · rw [d0, d1, d2]
  · rw [s0, s1, s2]; exact e1
  · rw [d0, d1, d2]; exact e2
  · rw [gs]; exact e1
  · rw [gd]; exact e2

/-- Witness of C7: three previous points, the car on its tracked position. -/
theorem jmt_graft_continuity_witness :
    stationaryTracker.previous_path_s[testParams.param_nb_points - 1
        - ([1, 2, 3] : List ℚ).length]? = some [100, 0, 0] ∧
    ∃ poly_s poly_d out tr1,
      JMT [(100 : ℚ), 0, 0] [100, 0, 0] 2 = Except.ok poly_s ∧
      JMT [(6 : ℚ), 0, 0] [testParams.get_dcenter 1, 0, 0] 2 = Except.ok poly_d ∧
      generate_trajectory_jmt testParams 1 49 testMap 3 6 0 100 6 [1, 2, 3] [6, 6, 6]
        stationaryTracker = Except.ok (out, tr1) ∧
      [polyeval poly_s 0, polyeval_dot poly_s 0, polyeval_ddot poly_s 0] = [100, 0, 0] ∧
      [polyeval poly_d 0, polyeval_dot poly_d 0, polyeval_ddot poly_d 0] = [6, 0, 0] ∧
      tr1.previous_path_s[([1, 2, 3] : List ℚ).length]?
        = some [polyeval poly_s 0, polyeval_dot poly_s 0, polyeval_ddot poly_s 0] ∧
      tr1.previous_path_d[([1, 2, 3] : List ℚ).length]?
        = some [polyeval poly_d 0, polyeval_dot poly_d 0, polyeval_ddot poly_d 0] ∧
      tr1.previous_path_s[([1, 2, 3] : List ℚ).length]?
        = stationaryTracker.previous_path_s[testParams.param_nb_points - 1
            - ([1, 2, 3] : List ℚ).length]? ∧
      tr1.previous_path_d[([1, 2, 3] : List ℚ).length]?
        = stationaryTracker.previous_path_d[testParams.param_nb_points - 1
            - ([1, 2, 3] : List ℚ).length]? :=
  ⟨rfl,
   jmt_graft_continuity testParams 1 49 testMap 3 6 0 100 6 [1, 2, 3] [6, 6, 6]
    stationaryTracker 0 0 0 0 rfl rfl (by decide) rfl rfl rfl⟩

/-- C10 (frame of `JMT_init`): on buffers that are not empty, `JMT_init(s0, d0)`
returns, sets entry 0 of the `s` buffer to `(s0, 0, 0)` and entry 0 of the `d`
buffer to `(d0, 0, 0)`, and leaves every entry at an index `>= 1` and the
length of both buffers unchanged. -/
theorem JMT_init_frame (s0 d0 : K) (tr : Tracker K)
    (hs : 0 < tr.previous_path_s.length) (hd : 0 < tr.previous_path_d.length) :
    ∃ tr1, JMT_init s0 d0 tr = Except.ok tr1 ∧
      tr1.previous_path_s[0]? = some [s0, 0, 0] ∧
      tr1.previous_path_d[0]? = some [d0, 0, 0] ∧
      (∀ i, 1 ≤ i → tr1.previous_path_s[i]? = tr.previous_path_s[i]? ∧
        tr1.previous_path_d[i]? = tr.previous_path_d[i]?) ∧
      tr1.previous_path_s.length = tr.previous_path_s.length ∧
      tr1.previous_path_d.length = tr.previous_path_d.length := by
  have h := JMT_init_ok s0 d0 tr hs hd
  refine ⟨_, h, ?_, ?_, ?_, ?_, ?_⟩
  · simp [List.getElem?_set, hs]
  · simp [List.getElem?_set, hd]
  · intro i hi
    have hne : ¬ 0 = i := by omega
    simp [List.getElem?_set, hne]
  · simp
  · simp

/-- Witness of C10: the fresh buffers of 50 entries. -/
theorem JMT_init_frame_witness :
    0 < (Tracker.fresh 50 : Tracker ℚ).previous_path_s.length ∧
    ∃ tr1, JMT_init (100 : ℚ) 6 (Tracker.fresh 50) = Except.ok tr1 ∧
      tr1.previous_path_s[0]? = some [100, 0, 0] ∧
      tr1.previous_path_d[0]? = some [6, 0, 0] ∧
      (∀ i, 1 ≤ i →
        tr1.previous_path_s[i]? = (Tracker.fresh 50 : Tracker ℚ).previous_path_s[i]? ∧
        tr1.previous_path_d[i]? = (Tracker.fresh 50 : Tracker ℚ).previous_path_d[i]?) ∧
      tr1.previous_path_s.length = (Tracker.fresh 50 : Tracker ℚ).previous_path_s.length ∧
      tr1.previous_path_d.length = (Tracker.fresh 50 : Tracker ℚ).previous_path_d.length :=
  ⟨by decide, JMT_init_frame 100 6 (Tracker.fresh 50) (by decide) (by decide)⟩

end GeneratorClaims

/-! ## Where the code departs from the two claims on grafting -/

section Grafting

variable {K : Type} [LinearOrderedField K]

/-- After a call that returns with `p >= 1` previous points, entry `p - 1` of
each buffer is the old entry `N - 1` (the end of the carried-over tail), while
entry `p`, the first new sample, is the old entry `N - p - 1`. -/
theorem generate_trajectory_jmt_graft (P : Params K) (target_lane : Int) (target_vel : K)
    (map : Map K) (car_x car_y car_yaw car_s car_d : K) (px py : List K) (tr : Tracker K)
    (si_dot si_ddot di_dot di_ddot : K)
    (hs : tr.previous_path_s.length = P.param_nb_points)
    (hd : tr.previous_path_d.length = P.param_nb_points)
    (hp : px.length < P.param_nb_points) (hp1 : 1 ≤ px.length) (hy : px.length ≤ py.length)
    (gs : tr.previous_path_s[P.param_nb_points - 1 - px.length]?
      = some [car_s, si_dot, si_ddot])
    (gd : tr.previous_path_d[P.param_nb_points - 1 - px.length]?
      = some [car_d, di_dot, di_ddot]) :
    ∃ out tr1,
      generate_trajectory_jmt P target_lane target_vel map car_x car_y car_yaw car_s car_d
        px py tr = Except.ok (out, tr1) ∧
      tr1.previous_path_s[px.length - 1]? = tr.previous_path_s[P.param_nb_points - 1]? ∧
      tr1.previous_path_d[px.length - 1]? = tr.previous_path_d[P.param_nb_points - 1]? ∧
      tr1.previous_path_s[px.length]?
        = tr.previous_path_s[P.param_nb_points - 1 - px.length]? ∧
      tr1.previous_path_d[px.length]?
        = tr.previous_path_d[P.param_nb_points - 1 - px.length]? := by
  obtain ⟨s0, s1, s2⟩ := JMT_coeffs_at_zero car_s si_dot si_ddot car_s 0 0 2
  obtain ⟨d0, d1, d2⟩ := JMT_coeffs_at_zero car_d di_dot di_ddot (P.get_dcenter target_lane) 0 0 2
  have hl1 : (tr.previous_path_s.drop (P.param_nb_points - px.length)).length = px.length := by
    simp only [List.length_drop, hs]; omega
  have hl2 : (tr.previous_path_d.drop (P.param_nb_points - px.length)).length = px.length := by
    simp only [List.length_drop, hd]; omega
  have e : P.param_nb_points - px.length + (px.length - 1) = P.param_nb_points - 1 := by omega
  refine ⟨_, _, generate_trajectory_jmt_ok P target_lane target_vel map car_x car_y car_yaw
      car_s car_d px py tr si_dot si_ddot di_dot di_ddot hs hd hp hy gs gd,
    ?_, ?_, ?_, ?_⟩
  · show (_ ++ _)[px.length - 1]? = _
    rw [List.getElem?_append_left (by omega), List.getElem?_drop, e]
  · show (_ ++ _)[px.length - 1]? = _
    rw [List.getElem?_append_left (by omega), List.getElem?_drop, e]
  · show (_ ++ _)[px.length]? = _
    rw [List.getElem?_append_right (by omega), hl1, Nat.sub_self,
      jmt_track_getElem? _ _ _ 0 (by omega), gs]
    simp only [Nat.cast_zero, zero_mul, s0, s1, s2]
  · show (_ ++ _)[px.length]? = _
    rw [List.getElem?_append_right (by omega), hl2, Nat.sub_self,
      jmt_track_getElem? _ _ _ 0 (by omega), gd]
    simp only [Nat.cast_zero, zero_mul, d0, d1, d2]

/-- After `JMT_init` on the fresh buffers of `N >= 2` entries, the entry at
index `N - 1`, which a first call with an empty previous path reads, is still
`{0, 0, 0}` on both axes. -/
theorem JMT_init_fresh (N : ℕ) (s0 d0 : K) (hN : 2 ≤ N) :
    ∃ tr, JMT_init s0 d0 (Tracker.fresh N) = Except.ok tr ∧
      tr.previous_path_s.length = N ∧ tr.previous_path_d.length = N ∧
      tr.previous_path_s[0]? = some [s0, 0, 0] ∧
      tr.previous_path_d[0]? = some [d0, 0, 0] ∧
      tr.previous_path_s[N - 1]? = some [0, 0, 0] ∧
      tr.previous_path_d[N - 1]? = some [0, 0, 0] := by
  have h := JMT_init_ok s0 d0 (Tracker.fresh N) (by simp [Tracker.fresh]; omega)
    (by simp [Tracker.fresh]; omega)
  have hne : ¬ 0 = N - 1 := by omega
  refine ⟨_, h, ?_, ?_, ?_, ?_, ?_, ?_⟩
  · simp [Tracker.fresh]
  · simp [Tracker.fresh]
  · simp [Tracker.fresh, List.getElem?_set]; omega
  · simp [Tracker.fresh, List.getElem?_set]; omega
  · show ((List.replicate N [0, 0, 0]).set 0 [s0, 0, 0])[N - 1]? = _
    rw [List.getElem?_set, if_neg hne, List.getElem?_replicate, if_pos (by omega)]
  · show ((List.replicate N [0, 0, 0]).set 0 [d0, 0, 0])[N - 1]? = _
    rw [List.getElem?_set, if_neg hne, List.getElem?_replicate, if_pos (by omega)]

end Grafting

section GraftingEvaluated

theorem firstPolyS_eq : firstPolyS = [0, 0, 0, 0, 0, 0] := by
  norm_num [firstPolyS, JMT_coeffs, JMT_A, Mat3.inverse, Mat3.det, Mat3.mulVec]

theorem firstPolyD_eq : firstPolyD = [0, 0, 0, 15 / 2, -(45 / 8), 9 / 8] := by
  norm_num [firstPolyD, testParams, JMT_coeffs, JMT_A, Mat3.inverse, Mat3.det, Mat3.mulVec]

theorem firstPolyS_eval (t : ℚ) : polyeval firstPolyS t = 0 := by
  rw [firstPolyS_eq, (polyeval_six 0 0 0 0 0 0 t).1]
  ring

theorem firstPolyD_eval (t : ℚ) :
    polyeval firstPolyD t = 15 / 2 * t ^ 3 - 45 / 8 * t ^ 4 + 9 / 8 * t ^ 5 := by
  rw [firstPolyD_eq, (polyeval_six 0 0 0 (15 / 2) (-(45 / 8)) (9 / 8) t).1]
  ring

/-- The first call, from the fresh buffers with the car at `s = 0`, `d = 0`
and target lane 1, returns the path `firstPathX`, `firstPathY` and leaves the
tracker `firstPlan`. -/
theorem first_call_firstPlan (target_vel car_x car_y car_yaw : ℚ) :
    generate_trajectory_jmt testParams 1 target_vel testMap car_x car_y car_yaw 0 0 [] []
        (Tracker.fresh 50)
      = Except.ok ([firstPathX, firstPathY], firstPlan) := by
  have h := generate_trajectory_jmt_ok testParams 1 target_vel testMap car_x car_y car_yaw 0 0
    [] [] (Tracker.fresh 50) 0 0 0 0 rfl rfl (by decide) (by decide) rfl rfl
  rw [h]
  simp [firstPathX, firstPathY, firstPlan, firstPolyS, firstPolyD, Tracker.fresh, testParams]

theorem firstPlan_d_getElem? (k : ℕ) (h : k < 50) :
    firstPlan.previous_path_d[k]?
      = some [polyeval firstPolyD ((k : ℚ) * (1 / 50)),
              polyeval_dot firstPolyD ((k : ℚ) * (1 / 50)),
              polyeval_ddot firstPolyD ((k : ℚ) * (1 / 50))] :=
  jmt_track_getElem? firstPolyD (1 / 50) 50 k h

theorem firstPlan_s_getElem? (k : ℕ) (h : k < 50) :
    firstPlan.previous_path_s[k]?
      = some [polyeval firstPolyS ((k : ℚ) * (1 / 50)),
              polyeval_dot firstPolyS ((k : ℚ) * (1 / 50)),
              polyeval_ddot firstPolyS ((k : ℚ) * (1 / 50))] :=
  jmt_track_getElem? firstPolyS (1 / 50) 50 k h

/-- C8 evaluated at a failing input.  A first call from the fresh buffers (car
at `s = 0`, `d = 0`, target lane 1) leaves the tracker `firstPlan`.  The second
call receives the last 47 points of the first path, the car being at the
tracked position of index 2.  It returns; entry 46 of the new `d` buffer (the
last point of the previous path) is the old entry 49, but entry 47, the first
new sample and the start boundary state, is the old entry 2, and the two
differ: the start state is not the tracked triple of the last point of the
previous path, and the position jumps back between indices 46 and 47. -/
theorem jmt_graft_not_at_tail :
    generate_trajectory_jmt testParams 1 49 testMap 0 0 0 0 0 [] [] (Tracker.fresh 50)
      = Except.ok ([firstPathX, firstPathY], firstPlan) ∧
    (firstPathX.drop 3).length = 47 ∧ (firstPathY.drop 3).length = 47 ∧
    ∃ out tr2,
      generate_trajectory_jmt testParams 1 49 testMap 0 0 0 0 (4548 / 9765625)
        (firstPathX.drop 3) (firstPathY.drop 3) firstPlan = Except.ok (out, tr2) ∧
      tr2.previous_path_d[46]? = firstPlan.previous_path_d[49]? ∧
      tr2.previous_path_d[47]? = firstPlan.previous_path_d[2]? ∧
      firstPlan.previous_path_d[2]?
        = some [4548 / 9765625, polyeval_dot firstPolyD (2 * (1 / 50)),
                polyeval_ddot firstPolyD (2 * (1 / 50))] ∧
      firstPlan.previous_path_d[49]?
        = some [7218824991 / 2500000000, polyeval_dot firstPolyD (49 * (1 / 50)),
                polyeval_ddot firstPolyD (49 * (1 / 50))] ∧
      tr2.previous_path_d[47]? ≠ tr2.previous_path_d[46]? := by
  have lx : (firstPathX.drop 3).length = 47 := by
    simp [firstPathX, jmt_points_length]
  have ly : (firstPathY.drop 3).length = 47 := by
    simp [firstPathY, jmt_points_length]
  have e2 : firstPlan.previous_path_d[2]?
      = some [4548 / 9765625, polyeval_dot firstPolyD (2 * (1 / 50)),
              polyeval_ddot firstPolyD (2 * (1 / 50))] := by
    rw [firstPlan_d_getElem? 2 (by decide), firstPolyD_eval]
    norm_num
  have e49 : firstPlan.previous_path_d[49]?
      = some [7218824991 / 2500000000, polyeval_dot firstPolyD (49 * (1 / 50)),
              polyeval_ddot firstPolyD (49 * (1 / 50))] := by
    rw [firstPlan_d_getElem? 49 (by decide), firstPolyD_eval]
    norm_num
  have s2 : firstPlan.previous_path_s[2]?
      = some [0, polyeval_dot firstPolyS (2 * (1 / 50)),
              polyeval_ddot firstPolyS (2 * (1 / 50))] := by
    rw [firstPlan_s_getElem? 2 (by decide), firstPolyS_eval]
    norm_num
  have hidx : testParams.param_nb_points - 1 - (firstPathX.drop 3).length = 2 := by
    rw [lx]; rfl
  obtain ⟨out, tr2, hcall, -, h46, -, h47⟩ := generate_trajectory_jmt_graft testParams 1 49
    testMap 0 0 0 0 (4548 / 9765625) (firstPathX.drop 3) (firstPathY.drop 3) firstPlan
    (polyeval_dot firstPolyS (2 * (1 / 50))) (polyeval_ddot firstPolyS (2 * (1 / 50)))
    (polyeval_dot firstPolyD (2 * (1 / 50))) (polyeval_ddot firstPolyD (2 * (1 / 50)))
    (jmt_track_length _ _ _) (jmt_track_length _ _ _)
    (by rw [lx]; decide) (by rw [lx]; decide) (by rw [lx, ly])
    (by rw [hidx]; exact s2) (by rw [hidx]; exact e2)
  rw [lx] at h46 h47
  have h46a : tr2.previous_path_d[46]? = firstPlan.previous_path_d[49]? := h46
  have h47a : tr2.previous_path_d[47]? = firstPlan.previous_path_d[2]? := h47
  refine ⟨first_call_firstPlan 49 0 0 0, lx, ly, out, tr2, hcall, h46a, h47a, e2, e49, ?_⟩
  rw [h47a, h46a, e2, e49]
  intro hc
  simp only [Option.some.injEq, List.cons.injEq] at hc
  norm_num at hc

/-- C9 evaluated at the documented input.  After `JMT_init(100, 6)` on the
fresh buffers of 50 entries, entry 0 holds `(100, 0, 0)`, but the first call,
with an empty previous path, reads the index `50 - 0 - 1 = 49`, where both axes
hold `(0, 0, 0)`; with the car reported at `s = 100`, `d = 6` the call aborts on
its first assertion. -/
theorem JMT_init_first_call_reads_zero :
    ∃ tr, JMT_init (100 : ℚ) 6 (Tracker.fresh testParams.param_nb_points) = Except.ok tr ∧
      tr.previous_path_s[0]? = some [100, 0, 0] ∧
      tr.previous_path_d[0]? = some [6, 0, 0] ∧
      vget tr.previous_path_s
          ((testParams.param_nb_points : Int) - ((([] : List ℚ).length : ℕ) : Int) - 1)
        = Except.ok [0, 0, 0] ∧
      vget tr.previous_path_d
          ((testParams.param_nb_points : Int) - ((([] : List ℚ).length : ℕ) : Int) - 1)
        = Except.ok [0, 0, 0] ∧
      generate_trajectory_jmt testParams 1 49 testMap 0 0 0 100 6 [] [] tr
        = Except.error Fault.assertion := by
  obtain ⟨tr, h, -, -, h0s, h0d, hNs, hNd⟩ :=
    JMT_init_fresh testParams.param_nb_points (100 : ℚ) 6 (by decide)
  have hi : (testParams.param_nb_points : Int) - ((([] : List ℚ).length : ℕ) : Int) - 1
      = ((testParams.param_nb_points - 1 : ℕ) : Int) := by decide
  refine ⟨tr, h, h0s, h0d, ?_, ?_, ?_⟩
  · rw [hi]; exact vget_natCast _ _ _ hNs
  · rw [hi]; exact vget_natCast _ _ _ hNd
  · exact generate_trajectory_jmt_assert_s testParams 1 49 testMap 0 0 0 100 6 [] [] tr
      [0, 0, 0] 0 (by decide) hNs rfl (by norm_num)

end GraftingEvaluated

/-! ## Roll-forward of the tracker -/

section RollForward

variable {K : Type} [LinearOrderedField K]

/-- Whenever the first loop of `generate_trajectory_jmt` returns on a previous
path of at most `param_nb_points` points, entry `j` of each buffer is the old
entry `param_nb_points - prev_size + j` for `j < n` and the old entry `j`
otherwise: no entry is read after it has been overwritten. -/
theorem jmt_carry_loop_roll (P : Params K) (px py : List K) (n : ℕ)
    (st0 st1 : JmtState K) (hp : px.length ≤ P.param_nb_points)
    (h : forLoop (jmt_carry_body P px py) n 0 st0 = Except.ok st1) :
    (∀ j, st1.previous_path_s[j]?
        = if j < n then st0.previous_path_s[P.param_nb_points - px.length + j]?
          else st0.previous_path_s[j]?) ∧
    (∀ j, st1.previous_path_d[j]?
        = if j < n then st0.previous_path_d[P.param_nb_points - px.length + j]?
          else st0.previous_path_d[j]?) ∧
    (∀ j, j < n →
      P.param_nb_points - px.length + j < st0.previous_path_s.length ∧
      P.param_nb_points - px.length + j < st0.previous_path_d.length) := by
  have key := forLoop_ok_inv (jmt_carry_body P px py)
    (fun i st =>
      (∀ j, st.previous_path_s[j]?
        = if j < i then st0.previous_path_s[P.param_nb_points - px.length + j]?
          else st0.previous_path_s[j]?) ∧
      (∀ j, st.previous_path_d[j]?
        = if j < i then st0.previous_path_d[P.param_nb_points - px.length + j]?
          else st0.previous_path_d[j]?) ∧
      (∀ j, j < i →
        P.param_nb_points - px.length + j < st0.previous_path_s.length ∧
        P.param_nb_points - px.length + j < st0.previous_path_d.length))
    n 0 st0 st1 ?_ (by simp) h
  · simpa using key
  · intro i s s1 _ _ ⟨h1, h2, h3⟩ hb
    have e : (P.param_nb_points : Int) - (px.length : Int) + (i : Int)
        = ((P.param_nb_points - px.length + i : ℕ) : Int) := by omega
    simp only [jmt_carry_body, bind_eq_ok, e] at hb
    obtain ⟨es, hes, w1, hw1, ed, hed, w2, hw2, x, _, y, _, hb⟩ := hb
    simp only [pure, Except.pure, Except.ok.injEq] at hb
    rw [vget_eq_ok] at hes hed
    rw [vset_eq_ok] at hw1 hw2
    simp only [Int.toNat_ofNat] at hes hed hw1 hw2
    obtain ⟨⟨-, l1⟩, rfl⟩ := hw1
    obtain ⟨⟨-, l2⟩, rfl⟩ := hw2
    subst hb
    have q1 : st0.previous_path_s[P.param_nb_points - px.length + i]? = some es := by
      rw [← hes.2, h1, if_neg (by omega)]
    have q2 : st0.previous_path_d[P.param_nb_points - px.length + i]? = some ed := by
      rw [← hed.2, h2, if_neg (by omega)]
    refine ⟨?_, ?_, ?_⟩
    rotate_left 2
    · intro j hj
      by_cases hji : j < i
      · exact h3 j hji
      · have hj2 : j = i := by omega
        subst hj2
        exact ⟨lt_length_of_getElem? _ _ _ q1, lt_length_of_getElem? _ _ _ q2⟩
    · intro j
      show (s.previous_path_s.set i es)[j]? = _
      rw [List.getElem?_set]
      by_cases hj : i = j
      · subst hj
        rw [if_pos rfl, if_pos l1, if_pos (by omega), ← hes.2, h1, if_neg (by omega)]
      · rw [if_neg hj, h1 j]
        by_cases hj2 : j < i
        · rw [if_pos hj2, if_pos (by omega)]
        · rw [if_neg hj2, if_neg (by omega)]
    · intro j
      show (s.previous_path_d.set i ed)[j]? = _
      rw [List.getElem?_set]
      by_cases hj : i = j
      · subst hj
        rw [if_pos rfl, if_pos l2, if_pos (by omega), ← hed.2, h2, if_neg (by omega)]
      · rw [if_neg hj, h2 j]
        by_cases hj2 : j < i
        · rw [if_pos hj2, if_pos (by omega)]
        · rw [if_neg hj2, if_neg (by omega)]

/-- Whenever the second loop of `generate_trajectory_jmt` returns, the buffer
entries below its first index are unchanged. -/
theorem jmt_sample_loop_below (P : Params K) (map : Map K) (ps pd : List K) (n i0 : ℕ)
    (st1 st2 : JmtState K)
    (h : forLoop (jmt_sample_body P map ps pd) n i0 st1 = Except.ok st2) :
    ∀ j, j < i0 → st2.previous_path_s[j]? = st1.previous_path_s[j]? ∧
      st2.previous_path_d[j]? = st1.previous_path_d[j]? := by
  have key := forLoop_ok_inv (jmt_sample_body P map ps pd)
    (fun _ st => ∀ j, j < i0 → st.previous_path_s[j]? = st1.previous_path_s[j]? ∧
      st.previous_path_d[j]? = st1.previous_path_d[j]?)
    n i0 st1 st2 ?_ (fun j _ => ⟨rfl, rfl⟩) h
  · exact key
  · intro i s s1 hi _ hinv hb
    simp only [jmt_sample_body, bind_eq_ok] at hb
    obtain ⟨w1, hw1, w2, hw2, hb⟩ := hb
    simp only [pure, Except.pure, Except.ok.injEq] at hb
    rw [vset_eq_ok] at hw1 hw2
    simp only [Int.toNat_ofNat] at hw1 hw2
    obtain ⟨-, rfl⟩ := hw1
    obtain ⟨-, rfl⟩ := hw2
    subst hb
    intro j hj
    have hne : ¬ i = j := by omega
    constructor
    · show (s.previous_path_s.set i _)[j]? = _
      rw [List.getElem?_set, if_neg hne]; exact (hinv j hj).1
    · show (s.previous_path_d.set i _)[j]? = _
      rw [List.getElem?_set, if_neg hne]; exact (hinv j hj).2

/-- Whenever `generate_trajectory_jmt` returns, fewer than `param_nb_points`
previous points were passed. -/
theorem generate_trajectory_jmt_returns_lt (P : Params K) (target_lane : Int) (target_vel : K)
    (map : Map K) (car_x car_y car_yaw car_s car_d : K) (px py : List K) (tr : Tracker K)
    (r : List (List K) × Tracker K)
    (h : generate_trajectory_jmt P target_lane target_vel map car_x car_y car_yaw car_s car_d
        px py tr = Except.ok r) :
    px.length < P.param_nb_points := by
  by_contra hc
  rw [generate_trajectory_jmt_full_path P target_lane target_vel map car_x car_y car_yaw
    car_s car_d px py tr (by omega)] at h
  cases h

/-- C11 (roll-forward of the tracker): for every call of
`generate_trajectory_jmt` that returns, with `p` previous points and
`consumed = N - p`, for every `i < p` the tracker entry `i` after the call is the
tracker entry `consumed + i` before the call, on both axes: the in-place
front-to-back copy gives the result of a simultaneous shift by `consumed`. -/
theorem tracker_roll_forward (P : Params K) (target_lane : Int) (target_vel : K)
    (map : Map K) (car_x car_y car_yaw car_s car_d : K) (px py : List K) (tr : Tracker K)
    (out : List (List K)) (tr1 : Tracker K)
    (h : generate_trajectory_jmt P target_lane target_vel map car_x car_y car_yaw car_s car_d
        px py tr = Except.ok (out, tr1)) :
    ∀ i, i < px.length →
      P.param_nb_points - px.length + i < tr.previous_path_s.length ∧
      P.param_nb_points - px.length + i < tr.previous_path_d.length ∧
      tr1.previous_path_s[i]? = tr.previous_path_s[P.param_nb_points - px.length + i]? ∧
      tr1.previous_path_d[i]? = tr.previous_path_d[P.param_nb_points - px.length + i]? := by
  have hlt := generate_trajectory_jmt_returns_lt P target_lane target_vel map car_x car_y
    car_yaw car_s car_d px py tr _ h
  simp only [generate_trajectory_jmt, bind_eq_ok] at h
  obtain ⟨_, _, _, _, _, _, _, _, _, _, _, _, _, _, _, _, _, _, _, _, ps, _, pd, _,
    st1, h1, st2, h2, h⟩ := h
  simp only [pure, Except.pure, Except.ok.injEq, Prod.mk.injEq] at h
  obtain ⟨r1, r2, r3⟩ := jmt_carry_loop_roll P px py px.length _ st1 (by omega) h1
  have b := jmt_sample_loop_below P map ps pd _ _ _ st2 h2
  intro i hi
  have e1 : tr1.previous_path_s[i]?
      = tr.previous_path_s[P.param_nb_points - px.length + i]? := by
    rw [← h.2]
    show st2.previous_path_s[i]? = _
    rw [(b i hi).1, r1 i, if_pos hi]
  have e2 : tr1.previous_path_d[i]?
      = tr.previous_path_d[P.param_nb_points - px.length + i]? := by
    rw [← h.2]
    show st2.previous_path_d[i]? = _
    rw [(b i hi).2, r2 i, if_pos hi]
  exact ⟨(r3 i hi).1, (r3 i hi).2, e1, e2⟩
/-- Witness of C11: three previous points, the car on its tracked position. -/
theorem tracker_roll_forward_witness :
    ∃ out tr1,
      generate_trajectory_jmt testParams 1 49 testMap 3 6 0 100 6 [1, 2, 3] [6, 6, 6]
        stationaryTracker = Except.ok (out, tr1) ∧
      ∀ i, i < ([1, 2, 3] : List ℚ).length →
        testParams.param_nb_points - ([1, 2, 3] : List ℚ).length + i
          < stationaryTracker.previous_path_s.length ∧
        testParams.param_nb_points - ([1, 2, 3] : List ℚ).length + i
          < stationaryTracker.previous_path_d.length ∧
        tr1.previous_path_s[i]?
          = stationaryTracker.previous_path_s[testParams.param_nb_points
              - ([1, 2, 3] : List ℚ).length + i]? ∧
        tr1.previous_path_d[i]?
          = stationaryTracker.previous_path_d[testParams.param_nb_points
              - ([1, 2, 3] : List ℚ).length + i]? :=
  ⟨_, _,
   generate_trajectory_jmt_ok testParams 1 49 testMap 3 6 0 100 6 [1, 2, 3] [6, 6, 6]
     stationaryTracker 0 0 0 0 rfl rfl (by decide) (by decide) rfl rfl,
   tracker_roll_forward testParams 1 49 testMap 3 6 0 100 6 [1, 2, 3] [6, 6, 6]
     stationaryTracker _ _
     (generate_trajectory_jmt_ok testParams 1 49 testMap 3 6 0 100 6 [1, 2, 3] [6, 6, 6]
       stationaryTracker 0 0 0 0 rfl rfl (by decide) (by decide) rfl rfl)⟩

end RollForward

/-! ## Shape of the tracker and what a returning call implies -/

section ShapeFacts

variable {K : Type} [LinearOrderedField K]

theorem triple_of_length {α : Type} (e : List α) (h : e.length = 3) :
    ∃ a b c, e = [a, b, c] := by
  match e, h with
  | [a, b, c], _ => exact ⟨a, b, c, rfl⟩

/-- On buffers of the tracker's shape, a call of `generate_trajectory_jmt` that
returns had fewer than `N` previous points, as many `y` as `x` values, and the
tracked triples at index `N - prev_size - 1` have the positions `car_s` and
`car_d`. -/
theorem generate_trajectory_jmt_of_returns (P : Params K) (target_lane : Int) (target_vel : K)
    (map : Map K) (car_x car_y car_yaw car_s car_d : K) (px py : List K) (tr : Tracker K)
    (out : List (List K)) (tr1 : Tracker K)
    (hsh : Tracker.shape P.param_nb_points tr)
    (h : generate_trajectory_jmt P target_lane target_vel map car_x car_y car_yaw car_s car_d
        px py tr = Except.ok (out, tr1)) :
    px.length < P.param_nb_points ∧ px.length ≤ py.length ∧
    ∃ si_dot si_ddot di_dot di_ddot,
      tr.previous_path_s[P.param_nb_points - 1 - px.length]?
        = some [car_s, si_dot, si_ddot] ∧
      tr.previous_path_d[P.param_nb_points - 1 - px.length]?
        = some [car_d, di_dot, di_ddot] := by
  obtain ⟨hs, hd, ts, td⟩ := hsh
  have hp := generate_trajectory_jmt_returns_lt P target_lane target_vel map car_x car_y
    car_yaw car_s car_d px py tr _ h
  obtain ⟨_, _, _, hy⟩ := generate_trajectory_jmt_returns P target_lane target_vel map
    car_x car_y car_yaw car_s car_d px py tr out tr1 h
  obtain ⟨es, hes⟩ := exists_getElem? tr.previous_path_s
    (P.param_nb_points - 1 - px.length) (by omega)
  obtain ⟨ed, hed⟩ := exists_getElem? tr.previous_path_d
    (P.param_nb_points - 1 - px.length) (by omega)
  obtain ⟨a, b, c, rfl⟩ := triple_of_length es (ts es (List.getElem?_mem hes))
  obtain ⟨a1, b1, c1, rfl⟩ := triple_of_length ed (td ed (List.getElem?_mem hed))
  have ha : car_s = a := by
    by_contra hne
    rw [generate_trajectory_jmt_assert_s P target_lane target_vel map car_x car_y car_yaw
      car_s car_d px py tr [a, b, c] a hp hes rfl hne] at h
    cases h
  subst ha
  have hb : car_d = a1 := by
    by_contra hne
    rw [generate_trajectory_jmt_assert_d P target_lane target_vel map car_x car_y car_yaw
      car_s car_d px py tr [car_s, b, c] [a1, b1, c1] a1 hp hes rfl hed rfl hne] at h
    cases h
  subst hb
  exact ⟨hp, hy, b, c, b1, c1, hes, hed⟩

theorem jmt_track_mem_length (c : List K) (dt : K) (n : ℕ) (e : List K)
    (h : e ∈ jmt_track c dt n) : e.length = 3 := by
  simp only [jmt_track, List.mem_map] at h
  obtain ⟨k, _, rfl⟩ := h
  rfl

/-- C14 (buffer-shape invariant of the tracker): both buffers have exactly
`N = param_nb_points` entries and every entry is a triple of exactly 3 values.
This holds of the buffers as created, is preserved by `JMT_init` (which returns
when `N >= 1`), and is preserved by every call of `generate_trajectory_jmt`
that returns. -/
theorem tracker_shape_invariant (P : Params K) :
    Tracker.shape P.param_nb_points (Tracker.fresh P.param_nb_points : Tracker K) ∧
    (∀ (s0 d0 : K) (tr : Tracker K), Tracker.shape P.param_nb_points tr →
      (0 < P.param_nb_points → ∃ tr1, JMT_init s0 d0 tr = Except.ok tr1) ∧
      ∀ tr1, JMT_init s0 d0 tr = Except.ok tr1 → Tracker.shape P.param_nb_points tr1) ∧
    (∀ (target_lane : Int) (target_vel : K) (map : Map K)
        (car_x car_y car_yaw car_s car_d : K) (px py : List K) (tr : Tracker K)
        (out : List (List K)) (tr1 : Tracker K),
      Tracker.shape P.param_nb_points tr →
      generate_trajectory_jmt P target_lane target_vel map car_x car_y car_yaw car_s car_d
        px py tr = Except.ok (out, tr1) →
      Tracker.shape P.param_nb_points tr1) := by
  refine ⟨?_, ?_, ?_⟩
  · refine ⟨by simp [Tracker.fresh], by simp [Tracker.fresh], ?_, ?_⟩
    · intro e he
      simp only [Tracker.fresh] at he
      rw [List.eq_of_mem_replicate he]; rfl
    · intro e he
      simp only [Tracker.fresh] at he
      rw [List.eq_of_mem_replicate he]; rfl
  · intro s0 d0 tr ⟨hs, hd, ts, td⟩
    constructor
    · intro hN
      exact ⟨_, JMT_init_ok s0 d0 tr (by omega) (by omega)⟩
    · intro tr1 h
      simp only [JMT_init, bind_eq_ok] at h
      obtain ⟨s1, h1, d1, h2, h⟩ := h
      simp only [pure, Except.pure, Except.ok.injEq] at h
      rw [vset_eq_ok] at h1 h2
      obtain ⟨-, rfl⟩ := h1
      obtain ⟨-, rfl⟩ := h2
      subst h
      refine ⟨by simp [hs], by simp [hd], ?_, ?_⟩
      · intro e he
        rcases List.mem_or_eq_of_mem_set he with h3 | h3
        · exact ts e h3
        · rw [h3]; rfl
      · intro e he
        rcases List.mem_or_eq_of_mem_set he with h3 | h3
        · exact td e h3
        · rw [h3]; rfl
  · intro target_lane target_vel map car_x car_y car_yaw car_s car_d px py tr out tr1 hsh h
    obtain ⟨hp, hy, si_dot, si_ddot, di_dot, di_ddot, gs, gd⟩ :=
      generate_trajectory_jmt_of_returns P target_lane target_vel map car_x car_y car_yaw
        car_s car_d px py tr out tr1 hsh h
    obtain ⟨hs, hd, ts, td⟩ := hsh
    rw [generate_trajectory_jmt_ok P target_lane target_vel map car_x car_y car_yaw car_s car_d
      px py tr si_dot si_ddot di_dot di_ddot hs hd hp hy gs gd] at h
    simp only [Except.ok.injEq, Prod.mk.injEq] at h
    rw [← h.2]
    refine ⟨?_, ?_, ?_, ?_⟩
    · simp only [List.length_append, List.length_drop, jmt_track_length, hs]; omega
    · simp only [List.length_append, List.length_drop, jmt_track_length, hd]; omega
    · intro e he
      rcases List.mem_append.mp he with h3 | h3
      · exact ts e (List.mem_of_mem_drop h3)
      · exact jmt_track_mem_length _ _ _ e h3
    · intro e he
      rcases List.mem_append.mp he with h3 | h3
      · exact td e (List.mem_of_mem_drop h3)
      · exact jmt_track_mem_length _ _ _ e h3

theorem stationaryTracker_shape :
    Tracker.shape testParams.param_nb_points stationaryTracker := by
  refine ⟨rfl, rfl, ?_, ?_⟩
  · intro e he
    rw [List.eq_of_mem_replicate he]; rfl
  · intro e he
    rw [List.eq_of_mem_replicate he]; rfl

/-- Witness of C14: a call with three previous points on the stationary tracker
returns and leaves buffers of the same shape. -/
theorem tracker_shape_invariant_witness :
    Tracker.shape testParams.param_nb_points stationaryTracker ∧
    ∃ out tr1,
      generate_trajectory_jmt testParams 1 49 testMap 3 6 0 100 6 [1, 2, 3] [6, 6, 6]
        stationaryTracker = Except.ok (out, tr1) ∧
      Tracker.shape testParams.param_nb_points tr1 :=
  ⟨stationaryTracker_shape, _, _,
   generate_trajectory_jmt_ok testParams 1 49 testMap 3 6 0 100 6 [1, 2, 3] [6, 6, 6]
     stationaryTracker 0 0 0 0 rfl rfl (by decide) (by decide) rfl rfl,
   (tracker_shape_invariant testParams).2.2 1 49 testMap 3 6 0 100 6 [1, 2, 3] [6, 6, 6]
     stationaryTracker _ _ stationaryTracker_shape
     (generate_trajectory_jmt_ok testParams 1 49 testMap 3 6 0 100 6 [1, 2, 3] [6, 6, 6]
       stationaryTracker 0 0 0 0 rfl rfl (by decide) (by decide) rfl rfl)⟩

end ShapeFacts

/-! ## The boundary-value system -/

section BoundarySystem

variable {K : Type} [LinearOrderedField K]

/-- Applied to a product `A x` with `A` nonsingular, the `inverse` gives back
`x`. -/
theorem Mat3.inverse_mulVec (A : Mat3 K) (x : Vec3 K) (h : A.det ≠ 0) :
    A.inverse.mulVec (A.mulVec x) = x := by
  have h1 : A.a11 * (A.a22 * A.a33 - A.a23 * A.a32)
    - A.a12 * (A.a21 * A.a33 - A.a23 * A.a31)
    + A.a13 * (A.a21 * A.a32 - A.a22 * A.a31) ≠ 0 := h
  cases x with
  | mk x0 x1 x2 =>
    simp only [Mat3.mulVec, Mat3.inverse, Mat3.det, Vec3.mk.injEq]
    refine ⟨?_, ?_, ?_⟩ <;> field_simp <;> ring

/-- C15: the matrix `A` that `JMT` builds from `T` is singular (its determinant
is zero) if and only if `T = 0`; for `T > 0` the boundary-value system
`A x = b` has exactly one solution for every right-hand side, and for `T = 0`
the matrix sends every vector to zero. -/
theorem JMT_A_singular_iff (T : K) :
    ((JMT_A T).det = 0 ↔ T = 0) ∧
    (0 < T → ∀ b : Vec3 K, ∃! x : Vec3 K, (JMT_A T).mulVec x = b) ∧
    (T = 0 → ∀ x : Vec3 K, (JMT_A T).mulVec x = { x0 := 0, x1 := 0, x2 := 0 }) := by
  refine ⟨?_, ?_, ?_⟩
  · rw [JMT_A_det]
    constructor
    · intro h
      rcases mul_eq_zero.mp h with h2 | h2
      · exact absurd h2 two_ne_zero
      · exact pow_eq_zero_iff (by decide) |>.mp h2
    · intro h
      rw [h]; ring
  · intro hT b
    have hdet : (JMT_A T).det ≠ 0 := by
      rw [JMT_A_det]
      exact mul_ne_zero two_ne_zero (pow_ne_zero _ hT.ne.symm)
    refine ⟨(JMT_A T).inverse.mulVec b, Mat3.mulVec_inverse _ b hdet, ?_⟩
    intro y hy
    rw [← hy, Mat3.inverse_mulVec _ y hdet]
  · intro hT x
    subst hT
    simp [Mat3.mulVec, JMT_A]

/-- Witness of C15 on rationals: `T = 2`, the horizon of the generator. -/
theorem JMT_A_singular_iff_witness :
    (0 : ℚ) < 2 ∧
    ∀ b : Vec3 ℚ, ∃! x : Vec3 ℚ, (JMT_A (2 : ℚ)).mulVec x = b :=
  ⟨by norm_num, (JMT_A_singular_iff (2 : ℚ)).2.1 (by norm_num)⟩

end BoundarySystem

/-! ## What the Frenet generator depends on, and what it plans from rest -/

section FrenetPlan

variable {K : Type} [LinearOrderedField K]

/-- C19: the result of `generate_trajectory_jmt` (the returned path, the
tracker after the call, or the fault) does not depend on `target_vel`, `car_x`,
`car_y` or `car_yaw`: two calls that agree on the other arguments and on the
tracker before the call have the same result. -/
theorem generate_trajectory_jmt_independent (P : Params K) (target_lane : Int) (map : Map K)
    (car_s car_d : K) (px py : List K) (tr : Tracker K)
    (target_vel car_x car_y car_yaw target_vel1 car_x1 car_y1 car_yaw1 : K) :
    generate_trajectory_jmt P target_lane target_vel map car_x car_y car_yaw car_s car_d
        px py tr
      = generate_trajectory_jmt P target_lane target_vel1 map car_x1 car_y1 car_yaw1
          car_s car_d px py tr :=
  rfl

theorem JMT_coeffs_rest (s T : K) : JMT_coeffs s 0 0 s 0 0 T = [s, 0, 0, 0, 0, 0] := by
  have e0 : s - (s + 0 * T + 1 / 2 * 0 * T * T) = 0 := by ring
  have e1 : (0 : K) - (0 + 0 * T) = 0 := by ring
  have e2 : (0 : K) - 0 = 0 := by ring
  simp only [JMT_coeffs, e0, e1, e2]
  simp [Mat3.mulVec]

theorem polyeval_const (s t : K) :
    polyeval [s, 0, 0, 0, 0, 0] t = s ∧ polyeval_dot [s, 0, 0, 0, 0, 0] t = 0 ∧
    polyeval_ddot [s, 0, 0, 0, 0, 0] t = 0 := by
  obtain ⟨h0, h1, h2⟩ := polyeval_six s 0 0 0 0 0 t
  rw [h0, h1, h2]
  exact ⟨by ring, by ring, by ring⟩

/-- C20 (no longitudinal progress from rest): for a call of
`generate_trajectory_jmt` on buffers of the tracker's shape that returns and
whose tracked `s` triple at the graft index `N - prev_size - 1` has zero
velocity and zero acceleration, the `s` polynomial is the constant `car_s`;
every newly computed `s` sample written to the tracker is `(car_s, 0, 0)` and
every newly computed output point is `map.getXYspline(car_s, d)` for the
sampled `d`. -/
theorem jmt_no_progress_from_rest (P : Params K) (target_lane : Int) (target_vel : K)
    (map : Map K) (car_x car_y car_yaw car_s car_d : K) (px py : List K) (tr : Tracker K)
    (out : List (List K)) (tr1 : Tracker K) (a : K)
    (hsh : Tracker.shape P.param_nb_points tr)
    (h : generate_trajectory_jmt P target_lane target_vel map car_x car_y car_yaw car_s car_d
        px py tr = Except.ok (out, tr1))
    (hrest : tr.previous_path_s[P.param_nb_points - 1 - px.length]? = some [a, 0, 0]) :
    ∃ poly_s poly_d di_dot di_ddot xs ys,
      JMT [car_s, 0, 0] [car_s, 0, 0] 2 = Except.ok poly_s ∧
      (∀ t, polyeval poly_s t = car_s ∧ polyeval_dot poly_s t = 0 ∧
        polyeval_ddot poly_s t = 0) ∧
      tr.previous_path_d[P.param_nb_points - 1 - px.length]?
        = some [car_d, di_dot, di_ddot] ∧
      JMT [car_d, di_dot, di_ddot] [P.get_dcenter target_lane, 0, 0] 2 = Except.ok poly_d ∧
      out = [xs, ys] ∧
      ∀ j, px.length ≤ j → j < P.param_nb_points →
        tr1.previous_path_s[j]? = some [car_s, 0, 0] ∧
        tr1.previous_path_d[j]?
          = some [polyeval poly_d (((j - px.length : ℕ) : K) * P.param_dt),
                  polyeval_dot poly_d (((j - px.length : ℕ) : K) * P.param_dt),
                  polyeval_ddot poly_d (((j - px.length : ℕ) : K) * P.param_dt)] ∧
        xs[j]? = some (map.getXYspline car_s
          (polyeval poly_d (((j - px.length : ℕ) : K) * P.param_dt))).1 ∧
        ys[j]? = some (map.getXYspline car_s
          (polyeval poly_d (((j - px.length : ℕ) : K) * P.param_dt))).2 := by
  obtain ⟨hp, hy, si_dot, si_ddot, di_dot, di_ddot, gs, gd⟩ :=
    generate_trajectory_jmt_of_returns P target_lane target_vel map car_x car_y car_yaw
      car_s car_d px py tr out tr1 hsh h
  rw [hrest] at gs
  simp only [Option.some.injEq, List.cons.injEq, and_true] at gs
  obtain ⟨rfl, rfl, rfl⟩ := gs
  obtain ⟨hs, hd, -, -⟩ := hsh
  rw [generate_trajectory_jmt_ok P target_lane target_vel map car_x car_y car_yaw a car_d
    px py tr 0 0 di_dot di_ddot hs hd hp hy hrest gd] at h
  simp only [Except.ok.injEq, Prod.mk.injEq] at h
  obtain ⟨ho, ht⟩ := h
  rw [JMT_coeffs_rest] at ho ht
  have hl1 : (tr.previous_path_s.drop (P.param_nb_points - px.length)).length = px.length := by
    simp only [List.length_drop, hs]; omega
  have hl2 : (tr.previous_path_d.drop (P.param_nb_points - px.length)).length = px.length := by
    simp only [List.length_drop, hd]; omega
  refine ⟨[a, 0, 0, 0, 0, 0], _, di_dot, di_ddot, _, _, ?_, fun t => polyeval_const a t, gd,
    JMT_triple_coeffs _ _ _ _ _ _ _, ho.symm, ?_⟩
  · rw [← JMT_coeffs_rest a 2]; exact JMT_triple_coeffs _ _ _ _ _ _ _
  · intro j hj1 hj2
    have hk : j - px.length < P.param_nb_points - px.length := by omega
    refine ⟨?_, ?_, ?_, ?_⟩
    · rw [← ht]
      show (_ ++ _)[j]? = _
      rw [List.getElem?_append_right (by omega), hl1, jmt_track_getElem? _ _ _ _ hk,
        (polyeval_const a _).1, (polyeval_const a _).2.1, (polyeval_const a _).2.2]
    · rw [← ht]
      show (_ ++ _)[j]? = _
      rw [List.getElem?_append_right (by omega), hl2, jmt_track_getElem? _ _ _ _ hk]
    · rw [List.getElem?_append_right (by omega), List.getElem?_map, jmt_points,
        List.getElem?_map, List.getElem?_range hk]
      simp only [Option.map_some', (polyeval_const a _).1]
    · have hl3 : (py.take px.length).length = px.length := by
        simp only [List.length_take]; omega
      rw [List.getElem?_append_right (by omega), hl3, List.getElem?_map, jmt_points,
        List.getElem?_map, List.getElem?_range hk]
      simp only [Option.map_some', (polyeval_const a _).1]

/-- Witness of C20: three previous points on the stationary tracker. -/
theorem jmt_no_progress_from_rest_witness :
    ∃ out tr1,
      generate_trajectory_jmt testParams 1 49 testMap 3 6 0 100 6 [1, 2, 3] [6, 6, 6]
        stationaryTracker = Except.ok (out, tr1) ∧
      JMT [(100 : ℚ), 0, 0] [100, 0, 0] 2 = Except.ok [100, 0, 0, 0, 0, 0] ∧
      ∀ j, ([1, 2, 3] : List ℚ).length ≤ j → j < testParams.param_nb_points →
        tr1.previous_path_s[j]? = some [100, 0, 0] := by
  have hcall := generate_trajectory_jmt_ok testParams 1 49 testMap 3 6 0 100 6 [1, 2, 3]
    [6, 6, 6] stationaryTracker 0 0 0 0 rfl rfl (by decide) (by decide) rfl rfl
  obtain ⟨poly_s, poly_d, di_dot, di_ddot, xs, ys, h1, -, -, -, -, h6⟩ :=
    jmt_no_progress_from_rest testParams 1 49 testMap 3 6 0 100 6 [1, 2, 3] [6, 6, 6]
      stationaryTracker _ _ 100 stationaryTracker_shape hcall rfl
  refine ⟨_, _, hcall, ?_, fun j hj1 hj2 => (h6 j hj1 hj2).1⟩
  have h2 := JMT_triple_coeffs (100 : ℚ) 0 0 100 0 0 2
  rw [JMT_coeffs_rest] at h2
  exact h2

end FrenetPlan

section SplineFrameFacts

variable {K : Type} [LinearOrderedField K]

/-- The transform loop on five points: every point is shifted by the reference
position and rotated by `0 - ref_yaw`. -/
theorem spline_transform_five (L : Libm K) (rx ry ryaw a0 a1 a2 a3 a4 b0 b1 b2 b3 b4 : K) :
    forLoop (spline_transform_body L rx ry ryaw) 5 0
        ([a0, a1, a2, a3, a4], [b0, b1, b2, b3, b4])
      = Except.ok
          ([(a0 - rx) * L.cos (0 - ryaw) - (b0 - ry) * L.sin (0 - ryaw),
            (a1 - rx) * L.cos (0 - ryaw) - (b1 - ry) * L.sin (0 - ryaw),
            (a2 - rx) * L.cos (0 - ryaw) - (b2 - ry) * L.sin (0 - ryaw),
            (a3 - rx) * L.cos (0 - ryaw) - (b3 - ry) * L.sin (0 - ryaw),
            (a4 - rx) * L.cos (0 - ryaw) - (b4 - ry) * L.sin (0 - ryaw)],
           [(a0 - rx) * L.sin (0 - ryaw) + (b0 - ry) * L.cos (0 - ryaw),
            (a1 - rx) * L.sin (0 - ryaw) + (b1 - ry) * L.cos (0 - ryaw),
            (a2 - rx) * L.sin (0 - ryaw) + (b2 - ry) * L.cos (0 - ryaw),
            (a3 - rx) * L.sin (0 - ryaw) + (b3 - ry) * L.cos (0 - ryaw),
            (a4 - rx) * L.sin (0 - ryaw) + (b4 - ry) * L.cos (0 - ryaw)]) := by
  rfl

/-- The frame when the anchor step returns the reference pose `(rx, ry, ryaw)`
and the two points `(u0, v0)`, `(u1, v1)`. -/
theorem spline_frame_of_anchor (P : Params K) (L : Libm K) (target_lane : Int) (map : Map K)
    (car_x car_y car_yaw car_s : K) (px py : List K) (rx ry ryaw u0 u1 v0 v1 : K)
    (h : spline_anchor P L car_x car_y car_yaw px py
      = Except.ok { ref_x := rx, ref_y := ry, ref_yaw := ryaw,
                    ptsx := [u0, u1], ptsy := [v0, v1] }) :
    spline_frame P L target_lane map car_x car_y car_yaw car_s px py
      = Except.ok
          { ref_x := rx, ref_y := ry, ref_yaw := ryaw,
            ptsx :=
              [(u0 - rx) * L.cos (0 - ryaw) - (v0 - ry) * L.sin (0 - ryaw),
               (u1 - rx) * L.cos (0 - ryaw) - (v1 - ry) * L.sin (0 - ryaw),
               ((map.getXY (car_s + 30) (P.get_dcenter target_lane)).1 - rx) * L.cos (0 - ryaw)
                 - ((map.getXY (car_s + 30) (P.get_dcenter target_lane)).2 - ry)
                   * L.sin (0 - ryaw),
               ((map.getXY (car_s + 60) (P.get_dcenter target_lane)).1 - rx) * L.cos (0 - ryaw)
                 - ((map.getXY (car_s + 60) (P.get_dcenter target_lane)).2 - ry)
                   * L.sin (0 - ryaw),
               ((map.getXY (car_s + 90) (P.get_dcenter target_lane)).1 - rx) * L.cos (0 - ryaw)
                 - ((map.getXY (car_s + 90) (P.get_dcenter target_lane)).2 - ry)
                   * L.sin (0 - ryaw)],
            ptsy :=
              [(u0 - rx) * L.sin (0 - ryaw) + (v0 - ry) * L.cos (0 - ryaw),
               (u1 - rx) * L.sin (0 - ryaw) + (v1 - ry) * L.cos (0 - ryaw),
               ((map.getXY (car_s + 30) (P.get_dcenter target_lane)).1 - rx) * L.sin (0 - ryaw)
                 + ((map.getXY (car_s + 30) (P.get_dcenter target_lane)).2 - ry)
                   * L.cos (0 - ryaw),
               ((map.getXY (car_s + 60) (P.get_dcenter target_lane)).1 - rx) * L.sin (0 - ryaw)
                 + ((map.getXY (car_s + 60) (P.get_dcenter target_lane)).2 - ry)
                   * L.cos (0 - ryaw),
               ((map.getXY (car_s + 90) (P.get_dcenter target_lane)).1 - rx) * L.sin (0 - ryaw)
                 + ((map.getXY (car_s + 90) (P.get_dcenter target_lane)).2 - ry)
                   * L.cos (0 - ryaw)] } := by
  simp only [spline_frame, h, bind, Except.bind]
  rfl

/-- The function `generate_trajectory` in terms of the frame: the frame is
computed first, the curve is fitted to its points, and the two remaining loops
run with its reference pose. -/
theorem generate_trajectory_of_frame (P : Params K) (L : Libm K)
    (set_points : List K → List K → K → K) (target_lane : Int) (target_vel : K)
    (map : Map K) (car_x car_y car_yaw car_s car_d : K) (px py : List K) (f : Anchor K)
    (h : spline_frame P L target_lane map car_x car_y car_yaw car_s px py = Except.ok f) :
    generate_trajectory P L set_points target_lane target_vel map
        car_x car_y car_yaw car_s car_d px py
      = (forLoop (spline_carry_body px py) px.length 0
            { x_add_on := 0, next_x_vals := [], next_y_vals := [] }).bind
          (fun st1 =>
            (forLoop
              (spline_sample_body P L (set_points f.ptsx f.ptsy) target_vel 30
                (L.sqrt (30 * 30 + set_points f.ptsx f.ptsy 30 * set_points f.ptsx f.ptsy 30))
                f.ref_x f.ref_y f.ref_yaw)
              (P.param_nb_points - px.length) 1 st1).bind
              (fun st2 => Except.ok [st2.next_x_vals, st2.next_y_vals])) := by
  simp only [spline_frame, bind] at h
  cases ha : spline_anchor P L car_x car_y car_yaw px py with
  | error e => rw [ha] at h; cases h
  | ok a =>
    rw [ha] at h
    simp only [Except.bind] at h
    cases hp : forLoop (spline_transform_body L a.ref_x a.ref_y a.ref_yaw)
        (a.ptsx ++ [(map.getXY (car_s + 30) (P.get_dcenter target_lane)).1]
          ++ [(map.getXY (car_s + 60) (P.get_dcenter target_lane)).1]
          ++ [(map.getXY (car_s + 90) (P.get_dcenter target_lane)).1]).length 0
        (a.ptsx ++ [(map.getXY (car_s + 30) (P.get_dcenter target_lane)).1]
          ++ [(map.getXY (car_s + 60) (P.get_dcenter target_lane)).1]
          ++ [(map.getXY (car_s + 90) (P.get_dcenter target_lane)).1],
         a.ptsy ++ [(map.getXY (car_s + 30) (P.get_dcenter target_lane)).2]
          ++ [(map.getXY (car_s + 60) (P.get_dcenter target_lane)).2]
          ++ [(map.getXY (car_s + 90) (P.get_dcenter target_lane)).2]) with
    | error e => rw [hp] at h; cases h
    | ok pts =>
      rw [hp] at h
      simp only [pure, Except.pure, Except.ok.injEq] at h
      subst h
      simp only [generate_trajectory, ha, hp, bind, Except.bind, pure, Except.pure]

/-- The frame is computed whenever the previous path has as many `y` as `x`
values, and it has five points. -/
theorem spline_frame_ok (P : Params K) (L : Libm K) (target_lane : Int) (map : Map K)
    (car_x car_y car_yaw car_s : K) (px py : List K) (hy : px.length ≤ py.length) :
    ∃ f, spline_frame P L target_lane map car_x car_y car_yaw car_s px py = Except.ok f ∧
      f.ptsx.length = 5 ∧ f.ptsy.length = 5 := by
  obtain ⟨a, ha, a1, a2⟩ := spline_anchor_ok P L car_x car_y car_yaw px py hy
  obtain ⟨rx, ry, ryaw, ax, ay⟩ := a
  obtain ⟨u0, u1, hu⟩ := List.length_eq_two.mp a1
  obtain ⟨v0, v1, hv⟩ := List.length_eq_two.mp a2
  simp only at hu hv
  subst hu hv
  exact ⟨_, spline_frame_of_anchor P L target_lane map car_x car_y car_yaw car_s px py
    rx ry ryaw u0 u1 v0 v1 ha, rfl, rfl⟩

/-- The resampling loop of `generate_trajectory`, started with `x_add_on = 0`:
iteration `k + 1` appends the image of the local point at abscissa
`(k + 1) * (target_x / N)`. -/
theorem spline_sample_loop_val (P : Params K) (L : Libm K) (spl : K → K)
    (target_vel target_x target_dist ref_x ref_y ref_yaw : K) (n : ℕ)
    (st : SplineState K) (h0 : st.x_add_on = 0) :
    ∃ st2, forLoop
        (spline_sample_body P L spl target_vel target_x target_dist ref_x ref_y ref_yaw)
        n 1 st = Except.ok st2 ∧
      st2.next_x_vals = st.next_x_vals ++ (List.range n).map (fun (k : ℕ) =>
        (((k + 1 : ℕ) : K) * (target_x / (target_dist / (P.param_dt * P.mph_to_ms target_vel))))
            * L.cos ref_yaw
          - spl (((k + 1 : ℕ) : K)
              * (target_x / (target_dist / (P.param_dt * P.mph_to_ms target_vel))))
            * L.sin ref_yaw + ref_x) ∧
      st2.next_y_vals = st.next_y_vals ++ (List.range n).map (fun (k : ℕ) =>
        (((k + 1 : ℕ) : K) * (target_x / (target_dist / (P.param_dt * P.mph_to_ms target_vel))))
            * L.sin ref_yaw
          + spl (((k + 1 : ℕ) : K)
              * (target_x / (target_dist / (P.param_dt * P.mph_to_ms target_vel))))
            * L.cos ref_yaw + ref_y) := by
  have key := forLoop_total
    (spline_sample_body P L spl target_vel target_x target_dist ref_x ref_y ref_yaw)
    (fun i s => 1 ≤ i ∧
      s.x_add_on = ((i - 1 : ℕ) : K)
        * (target_x / (target_dist / (P.param_dt * P.mph_to_ms target_vel))) ∧
      s.next_x_vals = st.next_x_vals ++ (List.range (i - 1)).map (fun (k : ℕ) =>
        (((k + 1 : ℕ) : K) * (target_x / (target_dist / (P.param_dt * P.mph_to_ms target_vel))))
            * L.cos ref_yaw
          - spl (((k + 1 : ℕ) : K)
              * (target_x / (target_dist / (P.param_dt * P.mph_to_ms target_vel))))
            * L.sin ref_yaw + ref_x) ∧
      s.next_y_vals = st.next_y_vals ++ (List.range (i - 1)).map (fun (k : ℕ) =>
        (((k + 1 : ℕ) : K) * (target_x / (target_dist / (P.param_dt * P.mph_to_ms target_vel))))
            * L.sin ref_yaw
          + spl (((k + 1 : ℕ) : K)
              * (target_x / (target_dist / (P.param_dt * P.mph_to_ms target_vel))))
            * L.cos ref_yaw + ref_y))
    n 1 st ?_ ⟨le_refl _, by simp [h0], by simp, by simp⟩
  · obtain ⟨st2, hl, -, -, h2, h3⟩ := key
    have e : 1 + n - 1 = n := by omega
    rw [e] at h2 h3
    exact ⟨st2, hl, h2, h3⟩
  · intro i s hi _ ⟨_, h1, h2, h3⟩
    have e : i + 1 - 1 = (i - 1) + 1 := by omega
    have hx : s.x_add_on + target_x / (target_dist / (P.param_dt * P.mph_to_ms target_vel))
        = ((i - 1 + 1 : ℕ) : K)
          * (target_x / (target_dist / (P.param_dt * P.mph_to_ms target_vel))) := by
      rw [h1]; push_cast; ring
    refine ⟨_, rfl, by omega, ?_, ?_, ?_⟩
    · show s.x_add_on + target_x / (target_dist / (P.param_dt * P.mph_to_ms target_vel)) = _
      rw [hx, e]
    · show s.next_x_vals ++ [_] = _
      rw [hx, h2, e, List.range_succ, List.map_append, List.append_assoc]
      rfl
    · show s.next_y_vals ++ [_] = _
      rw [hx, h3, e, List.range_succ, List.map_append, List.append_assoc]
      rfl

/-- C17: resampling in `generate_trajectory`.  On a previous path with as many
`y` as `x` values and with a positive target speed `v = mph_to_ms target_vel`,
the call returns the previous path followed by `N - prev_size` new points.
With `curve` the function fitted to the five frame points,
`D = sqrt(30*30 + curve(30)*curve(30))` and `n = D / (dt * v)`, the `k`-th new
point (`k = 1 .. N - prev_size`) is the local point `(k*30/n, curve(k*30/n))`
rotated by `+ref_yaw` and translated by `(ref_x, ref_y)`; consecutive local
abscissas differ by `30/n`, which is positive when `dt` and `D` are. -/
theorem generate_trajectory_resampling (P : Params K) (L : Libm K)
    (set_points : List K → List K → K → K) (target_lane : Int) (target_vel : K)
    (map : Map K) (car_x car_y car_yaw car_s car_d : K) (px py : List K)
    (hy : px.length ≤ py.length) (hv : 0 < P.mph_to_ms target_vel) :
    ∃ (f : Anchor K) (lx ly : List K) (curve : K → K) (D n : K),
      spline_frame P L target_lane map car_x car_y car_yaw car_s px py = Except.ok f ∧
      curve = set_points f.ptsx f.ptsy ∧
      D = L.sqrt (30 * 30 + curve 30 * curve 30) ∧
      n = D / (P.param_dt * P.mph_to_ms target_vel) ∧
      generate_trajectory P L set_points target_lane target_vel map
          car_x car_y car_yaw car_s car_d px py
        = Except.ok [px ++ lx, py.take px.length ++ ly] ∧
      lx.length = P.param_nb_points - px.length ∧
      ly.length = P.param_nb_points - px.length ∧
      (∀ k : ℕ, 1 ≤ k → k ≤ P.param_nb_points - px.length →
        lx[k - 1]? = some (((k : K) * 30 / n) * L.cos f.ref_yaw
            - curve ((k : K) * 30 / n) * L.sin f.ref_yaw + f.ref_x) ∧
        ly[k - 1]? = some (((k : K) * 30 / n) * L.sin f.ref_yaw
            + curve ((k : K) * 30 / n) * L.cos f.ref_yaw + f.ref_y)) ∧
      (∀ k : ℕ, ((k + 1 : ℕ) : K) * 30 / n - (k : K) * 30 / n = 30 / n) ∧
      (0 < P.param_dt → 0 < D → 0 < 30 / n) := by
  obtain ⟨f, hf, -, -⟩ := spline_frame_ok P L target_lane map car_x car_y car_yaw car_s
    px py hy
  obtain ⟨st1, hl1, c1, c2, c3⟩ := spline_carry_loop px py 0 hy
  obtain ⟨st2, hl2, d1, d2⟩ := spline_sample_loop_val P L (set_points f.ptsx f.ptsy)
    target_vel 30
    (L.sqrt (30 * 30 + set_points f.ptsx f.ptsy 30 * set_points f.ptsx f.ptsy 30))
    f.ref_x f.ref_y f.ref_yaw (P.param_nb_points - px.length) st1 c1
  generalize hlx : List.map _ (List.range (P.param_nb_points - px.length)) = lx at d1
  generalize hly : List.map _ (List.range (P.param_nb_points - px.length)) = ly at d2
  refine ⟨f, lx, ly, _, _, _, hf, rfl, rfl, rfl, ?_, ?_, ?_, ?_, ?_, ?_⟩
  · rw [generate_trajectory_of_frame P L set_points target_lane target_vel map
      car_x car_y car_yaw car_s car_d px py f hf, hl1]
    show Except.bind (forLoop _ _ 1 st1) _ = _
    rw [hl2]
    show Except.ok [st2.next_x_vals, st2.next_y_vals] = _
    rw [d1, d2, c2, c3]
  · rw [← hlx]; simp
  · rw [← hly]; simp
  · intro k hk1 hk2
    have e : k - 1 + 1 = k := by omega
    have hr : (List.range (P.param_nb_points - px.length))[k - 1]? = some (k - 1) :=
      List.getElem?_range (by omega)
    constructor
    · rw [← hlx, List.getElem?_map, hr, Option.map_some', e, mul_div_assoc]
    · rw [← hly, List.getElem?_map, hr, Option.map_some', e, mul_div_assoc]
  · intro k
    push_cast; ring
  · intro hdt hD
    have : 0 < P.param_dt * P.mph_to_ms target_vel := mul_pos hdt hv
    positivity

/-- Witness of C17: no previous point, the pose at the origin with heading 0,
49 mph on the straight test road with the flat test curve. -/
theorem generate_trajectory_resampling_witness :
    ∃ (f : Anchor ℚ) (lx ly : List ℚ) (n : ℚ),
      spline_frame testParams testLibm 1 testMap 0 0 0 0 [] [] = Except.ok f ∧
      n = testLibm.sqrt (30 * 30 + testSpline f.ptsx f.ptsy 30 * testSpline f.ptsx f.ptsy 30)
            / (testParams.param_dt * testParams.mph_to_ms 49) ∧
      generate_trajectory testParams testLibm testSpline 1 49 testMap 0 0 0 0 6 [] []
        = Except.ok [[] ++ lx, List.take 0 [] ++ ly] ∧
      lx.length = 50 ∧
      ∀ k : ℕ, 1 ≤ k → k ≤ 50 →
        lx[k - 1]? = some (((k : ℚ) * 30 / n) * testLibm.cos f.ref_yaw
          - testSpline f.ptsx f.ptsy ((k : ℚ) * 30 / n) * testLibm.sin f.ref_yaw + f.ref_x) := by
  obtain ⟨f, lx, ly, curve, D, n, h1, h2, h3, h4, h5, h6, -, h8, -, -⟩ :=
    generate_trajectory_resampling testParams testLibm testSpline 1 49 testMap 0 0 0 0 6 [] []
      (le_refl _) (by norm_num [testParams])
  subst h2 h3
  exact ⟨f, lx, ly, n, h1, h4, h5, h6, fun k hk1 hk2 => (h8 k hk1 hk2).1⟩

end SplineFrameFacts

section LocalFrame

variable {K : Type} [LinearOrderedField K]

/-- The first two frame points when fewer than two previous points remain. -/
theorem spline_frame_short (P : Params K) (L : Libm K) (target_lane : Int) (map : Map K)
    (car_x car_y car_yaw car_s : K) (px py : List K) (h : px.length < 2) :
    ∃ f, spline_frame P L target_lane map car_x car_y car_yaw car_s px py = Except.ok f ∧
      f.ref_x = car_x ∧ f.ref_y = car_y ∧ f.ref_yaw = P.deg2rad car_yaw ∧
      f.ptsx[0]? = some ((car_x - L.cos car_yaw - car_x) * L.cos (0 - P.deg2rad car_yaw)
        - (car_y - L.sin car_yaw - car_y) * L.sin (0 - P.deg2rad car_yaw)) ∧
      f.ptsy[0]? = some ((car_x - L.cos car_yaw - car_x) * L.sin (0 - P.deg2rad car_yaw)
        + (car_y - L.sin car_yaw - car_y) * L.cos (0 - P.deg2rad car_yaw)) ∧
      f.ptsx[1]? = some ((car_x - car_x) * L.cos (0 - P.deg2rad car_yaw)
        - (car_y - car_y) * L.sin (0 - P.deg2rad car_yaw)) ∧
      f.ptsy[1]? = some ((car_x - car_x) * L.sin (0 - P.deg2rad car_yaw)
        + (car_y - car_y) * L.cos (0 - P.deg2rad car_yaw)) :=
  ⟨_, spline_frame_of_anchor P L target_lane map car_x car_y car_yaw car_s px py _ _ _ _ _ _ _
    (spline_anchor_short P L car_x car_y car_yaw px py h), rfl, rfl, rfl, rfl, rfl, rfl, rfl⟩

/-- The first two frame points when two previous points or more remain. -/
theorem spline_frame_long (P : Params K) (L : Libm K) (target_lane : Int) (map : Map K)
    (car_x car_y car_yaw car_s : K) (px py : List K) (x1 y1 x0 y0 : K) (h : 2 ≤ px.length)
    (r1 : px[px.length - 1]? = some x1) (r2 : py[px.length - 1]? = some y1)
    (r3 : px[px.length - 2]? = some x0) (r4 : py[px.length - 2]? = some y0) :
    ∃ f, spline_frame P L target_lane map car_x car_y car_yaw car_s px py = Except.ok f ∧
      f.ref_x = x1 ∧ f.ref_y = y1 ∧ f.ref_yaw = L.atan2 (y1 - y0) (x1 - x0) ∧
      f.ptsx[0]? = some ((x0 - x1) * L.cos (0 - L.atan2 (y1 - y0) (x1 - x0))
        - (y0 - y1) * L.sin (0 - L.atan2 (y1 - y0) (x1 - x0))) ∧
      f.ptsy[0]? = some ((x0 - x1) * L.sin (0 - L.atan2 (y1 - y0) (x1 - x0))
        + (y0 - y1) * L.cos (0 - L.atan2 (y1 - y0) (x1 - x0))) ∧
      f.ptsx[1]? = some ((x1 - x1) * L.cos (0 - L.atan2 (y1 - y0) (x1 - x0))
        - (y1 - y1) * L.sin (0 - L.atan2 (y1 - y0) (x1 - x0))) ∧
      f.ptsy[1]? = some ((x1 - x1) * L.sin (0 - L.atan2 (y1 - y0) (x1 - x0))
        + (y1 - y1) * L.cos (0 - L.atan2 (y1 - y0) (x1 - x0))) :=
  ⟨_, spline_frame_of_anchor P L target_lane map car_x car_y car_yaw car_s px py _ _ _ _ _ _ _
    (spline_anchor_long P L car_x car_y car_yaw px py x1 y1 x0 y0 h r1 r2 r3 r4),
    rfl, rfl, rfl, rfl, rfl, rfl, rfl⟩

/-- The cosine of 90 radians is not zero: 90 is not an odd multiple of
`π / 2`. -/
theorem cos_ninety_ne_zero : Real.cos 90 ≠ 0 := by
  intro h
  obtain ⟨k, hk⟩ := Real.cos_eq_zero_iff.mp h
  have h1 := Real.pi_gt_d2
  have h2 := Real.pi_lt_d2
  have hk2 : (2 * (k : ℝ) + 1) * Real.pi = 180 := by linarith
  rcases le_or_lt k 28 with hle | hgt
  · have : (k : ℝ) ≤ 28 := by exact_mod_cast hle
    nlinarith
  · have : (29 : ℝ) ≤ (k : ℝ) := by exact_mod_cast hgt
    nlinarith

/-- The angle of the point `(x, y)`, when it is not the origin, has cosine
`x / r` and sine `y / r`, with `r` its distance to the origin. -/
theorem arg_cos_sin (y x : ℝ) (h : x ≠ 0 ∨ y ≠ 0) :
    Real.cos (Complex.arg ⟨x, y⟩) = x / Real.sqrt (x * x + y * y) ∧
    Real.sin (Complex.arg ⟨x, y⟩) = y / Real.sqrt (x * x + y * y) := by
  have hz : (⟨x, y⟩ : ℂ) ≠ 0 := by
    intro hc
    have hre := congrArg Complex.re hc
    have him := congrArg Complex.im hc
    simp only [Complex.zero_re, Complex.zero_im] at hre him
    rcases h with h | h
    · exact h hre
    · exact h him
  have habs : Complex.abs ⟨x, y⟩ = Real.sqrt (x * x + y * y) := by
    rw [Complex.abs_apply, Complex.normSq_mk]
  exact ⟨by rw [Complex.cos_arg hz, habs], by rw [Complex.sin_arg, habs]⟩

/-- C13, evaluated over the reals with the real cosine and sine and
`deg2rad x = x * π / 180`, on an empty previous path.  At the pose
`(0, 0, yaw = 0)` of the spec's scenario the first two frame points are
`(-1, 0)` and `(0, 0)`.  At the pose `(0, 0, yaw = 90)` the synthesized anchor
is placed with `cos(90)`, `sin(90)` of the yaw read as radians, while the frame
is rotated by `deg2rad(90) = π / 2`: the first frame point is
`(-sin 90, cos 90)`, whose local `y` is not `0` and whose local `x` is not
`-1`. -/
theorem heading_anchor_not_aligned :
    (∃ f : Anchor ℝ, spline_frame
        { param_nb_points := 50, param_dt := 1 / 50,
          get_dcenter := fun lane => 2 + 4 * (lane : ℝ),
          mph_to_ms := fun v => v * 100 / 224,
          deg2rad := fun x => x * Real.pi / 180 }
        { cos := Real.cos, sin := Real.sin,
          atan2 := fun y x => Complex.arg ⟨x, y⟩, sqrt := Real.sqrt }
        1 { getXY := fun s d => (s, d), getXYspline := fun s d => (s, d) }
        0 0 0 0 [] [] = Except.ok f ∧
      f.ptsx[0]? = some (-1 : ℝ) ∧ f.ptsy[0]? = some 0 ∧
      f.ptsx[1]? = some 0 ∧ f.ptsy[1]? = some 0) ∧
    (∃ f : Anchor ℝ, spline_frame
        { param_nb_points := 50, param_dt := 1 / 50,
          get_dcenter := fun lane => 2 + 4 * (lane : ℝ),
          mph_to_ms := fun v => v * 100 / 224,
          deg2rad := fun x => x * Real.pi / 180 }
        { cos := Real.cos, sin := Real.sin,
          atan2 := fun y x => Complex.arg ⟨x, y⟩, sqrt := Real.sqrt }
        1 { getXY := fun s d => (s, d), getXYspline := fun s d => (s, d) }
        0 0 90 0 [] [] = Except.ok f ∧
      f.ptsx[0]? = some (-Real.sin 90) ∧ f.ptsy[0]? = some (Real.cos 90) ∧
      f.ptsx[1]? = some 0 ∧ f.ptsy[1]? = some 0 ∧
      Real.cos 90 ≠ 0 ∧ -Real.sin 90 ≠ -1) := by
  constructor
  · obtain ⟨f, hf, -, -, -, h1, h2, h3, h4⟩ := spline_frame_short
      { param_nb_points := 50, param_dt := 1 / 50,
        get_dcenter := fun lane => 2 + 4 * (lane : ℝ),
        mph_to_ms := fun v => v * 100 / 224,
        deg2rad := fun x => x * Real.pi / 180 }
      { cos := Real.cos, sin := Real.sin,
        atan2 := fun y x => Complex.arg ⟨x, y⟩, sqrt := Real.sqrt }
      1 { getXY := fun s d => (s, d), getXYspline := fun s d => (s, d) }
      (0 : ℝ) 0 0 0 [] [] (by decide)
    refine ⟨f, hf, ?_, ?_, ?_, ?_⟩
    · rw [h1]; simp
    · rw [h2]; simp
    · rw [h3]; simp
    · rw [h4]; simp
  · obtain ⟨f, hf, -, -, -, h1, h2, h3, h4⟩ := spline_frame_short
      { param_nb_points := 50, param_dt := 1 / 50,
        get_dcenter := fun lane => 2 + 4 * (lane : ℝ),
        mph_to_ms := fun v => v * 100 / 224,
        deg2rad := fun x => x * Real.pi / 180 }
      { cos := Real.cos, sin := Real.sin,
        atan2 := fun y x => Complex.arg ⟨x, y⟩, sqrt := Real.sqrt }
      1 { getXY := fun s d => (s, d), getXYspline := fun s d => (s, d) }
      (0 : ℝ) 0 90 0 [] [] (by decide)
    have e : (0 : ℝ) - 90 * Real.pi / 180 = -(Real.pi / 2) := by ring
    refine ⟨f, hf, ?_, ?_, ?_, ?_, cos_ninety_ne_zero, ?_⟩
    · rw [h1]
      simp only [e, Real.cos_neg, Real.sin_neg, Real.cos_pi_div_two, Real.sin_pi_div_two]
      congr 1; ring
    · rw [h2]
      simp only [e, Real.cos_neg, Real.sin_neg, Real.cos_pi_div_two, Real.sin_pi_div_two]
      congr 1; ring
    · rw [h3]; simp
    · rw [h4]; simp
    · intro hs
      have hs1 : Real.sin 90 = 1 := by linarith
      have hsq := Real.sin_sq_add_cos_sq 90
      rw [hs1] at hsq
      have hc : Real.cos 90 ^ 2 = 0 := by linarith
      exact cos_ninety_ne_zero (pow_eq_zero_iff (by norm_num) |>.mp hc)

/-- C18: over the reals, with the real cosine and sine and with `atan2 y x` the
angle of the point `(x, y)`: when the previous path has two points or more and
its last two points `(x0, y0)`, `(x1, y1)` are distinct, the frame of
`generate_trajectory` is centred at `(x1, y1)`, the last previous point is the
frame point `(0, 0)`, and the one before it is `(-dist, 0)` with `dist > 0` the
Euclidean distance of the two; so the first two frame points have local
`y = 0` and increase strictly in local `x`. -/
theorem previous_points_local_frame (P : Params ℝ) (L : Libm ℝ) (target_lane : Int)
    (map : Map ℝ) (car_x car_y car_yaw car_s : ℝ) (px py : List ℝ) (x1 y1 x0 y0 : ℝ)
    (hcos : L.cos = Real.cos) (hsin : L.sin = Real.sin)
    (hatan : ∀ y x : ℝ, x ≠ 0 ∨ y ≠ 0 →
      Real.cos (L.atan2 y x) = x / Real.sqrt (x * x + y * y) ∧
      Real.sin (L.atan2 y x) = y / Real.sqrt (x * x + y * y))
    (h : 2 ≤ px.length)
    (r1 : px[px.length - 1]? = some x1) (r2 : py[px.length - 1]? = some y1)
    (r3 : px[px.length - 2]? = some x0) (r4 : py[px.length - 2]? = some y0)
    (hne : x0 ≠ x1 ∨ y0 ≠ y1) :
    ∃ (f : Anchor ℝ) (u0 u1 : ℝ),
      spline_frame P L target_lane map car_x car_y car_yaw car_s px py = Except.ok f ∧
      f.ref_x = x1 ∧ f.ref_y = y1 ∧
      f.ptsx[0]? = some u0 ∧ f.ptsy[0]? = some 0 ∧
      f.ptsx[1]? = some u1 ∧ f.ptsy[1]? = some 0 ∧
      u0 = -Real.sqrt ((x1 - x0) ^ 2 + (y1 - y0) ^ 2) ∧ u1 = 0 ∧
      0 < Real.sqrt ((x1 - x0) ^ 2 + (y1 - y0) ^ 2) ∧ u0 < u1 := by
  obtain ⟨f, hf, f1, f2, -, h1, h2, h3, h4⟩ := spline_frame_long P L target_lane map
    car_x car_y car_yaw car_s px py x1 y1 x0 y0 h r1 r2 r3 r4
  have hd : x1 - x0 ≠ 0 ∨ y1 - y0 ≠ 0 := by
    rcases hne with hx | hy
    · exact Or.inl (sub_ne_zero.mpr (Ne.symm hx))
    · exact Or.inr (sub_ne_zero.mpr (Ne.symm hy))
  obtain ⟨hc, hs⟩ := hatan (y1 - y0) (x1 - x0) hd
  have hpos0 : 0 < (x1 - x0) * (x1 - x0) + (y1 - y0) * (y1 - y0) := by
    rcases hd with hx | hy
    · have := mul_self_pos.mpr hx
      have := mul_self_nonneg (y1 - y0)
      linarith
    · have := mul_self_pos.mpr hy
      have := mul_self_nonneg (x1 - x0)
      linarith
  have hr : 0 < Real.sqrt ((x1 - x0) * (x1 - x0) + (y1 - y0) * (y1 - y0)) :=
    Real.sqrt_pos.mpr hpos0
  have hr2 := Real.mul_self_sqrt (le_of_lt hpos0)
  have esq : (x1 - x0) ^ 2 + (y1 - y0) ^ 2
      = (x1 - x0) * (x1 - x0) + (y1 - y0) * (y1 - y0) := by ring
  rw [esq]
  have hu0 : (x0 - x1) * L.cos (0 - L.atan2 (y1 - y0) (x1 - x0))
      - (y0 - y1) * L.sin (0 - L.atan2 (y1 - y0) (x1 - x0))
      = -Real.sqrt ((x1 - x0) * (x1 - x0) + (y1 - y0) * (y1 - y0)) := by
    rw [hcos, hsin, zero_sub, Real.cos_neg, Real.sin_neg, hc, hs]
    field_simp
    nlinarith
  have hv0 : (x0 - x1) * L.sin (0 - L.atan2 (y1 - y0) (x1 - x0))
      + (y0 - y1) * L.cos (0 - L.atan2 (y1 - y0) (x1 - x0)) = 0 := by
    rw [hcos, hsin, zero_sub, Real.cos_neg, Real.sin_neg, hc, hs]
    field_simp
    ring
  refine ⟨f, _, _, hf, f1, f2, h1, ?_, h3, ?_, hu0, by ring, hr, ?_⟩
  · rw [h2, hv0]
  · rw [h4]; congr 1; ring
  · rw [hu0]
    have : (x1 - x1) * L.cos (0 - L.atan2 (y1 - y0) (x1 - x0))
        - (y1 - y1) * L.sin (0 - L.atan2 (y1 - y0) (x1 - x0)) = 0 := by ring
    rw [this]; linarith

/-- Witness of C18: the previous path `(0, 0), (1, 0)`, with the angle of a
point taken as the argument of the complex number `x + i y`. -/
theorem previous_points_local_frame_witness :
    ∃ (f : Anchor ℝ) (u0 u1 : ℝ),
      spline_frame
        { param_nb_points := 50, param_dt := 1 / 50,
          get_dcenter := fun lane => 2 + 4 * (lane : ℝ),
          mph_to_ms := fun v => v * 100 / 224,
          deg2rad := fun x => x * Real.pi / 180 }
        { cos := Real.cos, sin := Real.sin,
          atan2 := fun y x => Complex.arg ⟨x, y⟩, sqrt := Real.sqrt }
        1 { getXY := fun s d => (s, d), getXYspline := fun s d => (s, d) }
        1 0 0 1 [0, 1] [0, 0] = Except.ok f ∧
      f.ptsx[0]? = some u0 ∧ f.ptsy[0]? = some 0 ∧
      f.ptsx[1]? = some u1 ∧ f.ptsy[1]? = some 0 ∧
      u0 = -Real.sqrt ((1 - 0) ^ 2 + (0 - 0) ^ 2) ∧ u1 = 0 ∧ u0 < u1 := by
  obtain ⟨f, u0, u1, hf, -, -, h1, h2, h3, h4, h5, h6, -, h8⟩ :=
    previous_points_local_frame
      { param_nb_points := 50, param_dt := 1 / 50,
        get_dcenter := fun lane => 2 + 4 * (lane : ℝ),
        mph_to_ms := fun v => v * 100 / 224,
        deg2rad := fun x => x * Real.pi / 180 }
      { cos := Real.cos, sin := Real.sin,
        atan2 := fun y x => Complex.arg ⟨x, y⟩, sqrt := Real.sqrt }
      1 { getXY := fun s d => (s, d), getXYspline := fun s d => (s, d) }
      1 0 0 1 [0, 1] [0, 0] 1 0 0 0 rfl rfl (fun y x hxy => arg_cos_sin y x hxy)
      (by decide) rfl rfl rfl rfl (Or.inl (by norm_num))
  exact ⟨f, u0, u1, hf, h1, h2, h3, h4, h5, h6, h8⟩

end LocalFrame

section RunWithBuffersFacts

variable {K : Type} [LinearOrderedField K]

theorem mapError_bind {ε ε1 α β : Type} (g : ε → ε1) (x : Except ε α) (f : α → Except ε β) :
    Except.mapError g (x >>= f) = (Except.mapError g x >>= fun a => Except.mapError g (f a)) := by
  cases x <;> rfl

theorem mapError_pure {ε ε1 α : Type} (g : ε → ε1) (a : α) :
    Except.mapError g (pure a : Except ε α) = pure a := rfl

theorem mapError_withTracker {α : Type} (tr : Tracker K) (x : Except Fault α) :
    Except.mapError Prod.fst (withTracker tr x) = x := by
  cases x <;> rfl

theorem mapError_eq_ok {ε ε1 α : Type} (g : ε → ε1) (x : Except ε α) (a : α)
    (h : Except.mapError g x = Except.ok a) : x = Except.ok a := by
  cases x with
  | error e => cases h
  | ok b => cases h; rfl

/-- Forgetting the buffers reported with a fault, the loop with buffers is the
loop. -/
theorem forLoopAt_forget {σ : Type} (bodyAt : ℕ → σ → Except (Fault × Tracker K) σ)
    (body : ℕ → σ → Except Fault σ)
    (hb : ∀ i s, Except.mapError Prod.fst (bodyAt i s) = body i s) :
    ∀ (n i : ℕ) (st : σ),
      Except.mapError Prod.fst (forLoopAt bodyAt n i st) = forLoop body n i st := by
  intro n
  induction n with
  | zero => intro i st; rfl
  | succ n ih =>
    intro i st
    simp only [forLoopAt, forLoop, ← hb i st]
    cases bodyAt i st with
    | error e => rfl
    | ok s1 => exact ih (i + 1) s1

theorem jmt_carry_body_at_forget (P : Params K) (px py : List K) (i : ℕ) (st : JmtState K) :
    Except.mapError Prod.fst (jmt_carry_body_at P px py i st) = jmt_carry_body P px py i st := by
  simp only [jmt_carry_body_at, jmt_carry_body, mapError_bind, mapError_withTracker,
    mapError_pure]

theorem jmt_sample_body_at_forget (P : Params K) (map : Map K) (poly_s poly_d : List K)
    (i : ℕ) (st : JmtState K) :
    Except.mapError Prod.fst (jmt_sample_body_at P map poly_s poly_d i st)
      = jmt_sample_body P map poly_s poly_d i st := by
  simp only [jmt_sample_body_at, jmt_sample_body, mapError_bind, mapError_withTracker,
    mapError_pure]

/-- Forgetting the buffers reported with a fault, the run with buffers of
`generate_trajectory_jmt` is `generate_trajectory_jmt`. -/
theorem generate_trajectory_jmt_at_forget (P : Params K) (target_lane : Int) (target_vel : K)
    (map : Map K) (car_x car_y car_yaw car_s car_d : K) (px py : List K) (tr : Tracker K) :
    Except.mapError Prod.fst
        (generate_trajectory_jmt_at P target_lane target_vel map car_x car_y car_yaw
          car_s car_d px py tr)
      = generate_trajectory_jmt P target_lane target_vel map car_x car_y car_yaw
          car_s car_d px py tr := by
  simp only [generate_trajectory_jmt_at, generate_trajectory_jmt, mapError_bind,
    mapError_withTracker, mapError_pure,
    forLoopAt_forget _ _ (jmt_carry_body_at_forget P px py),
    forLoopAt_forget _ _ (jmt_sample_body_at_forget P map _ _)]

/-- C12: desynchronization is a hard abort, and it is atomic.  For buffers of
`N` entries, fewer than `N` previous points (with as many `y` as `x` values),
and the entries at `lastIndex = N - p - 1` being the triples `[a, ..]` and
`[b, ..]`: the call stops on a failed assertion exactly when `car_s ≠ a` or
`car_d ≠ b`; whenever the call does not return, the fault is a failed
assertion and the buffers reported with it are the buffers before the call;
and when both positions agree the call returns. -/
theorem desynchronization_aborts_atomically (P : Params K) (target_lane : Int)
    (target_vel : K) (map : Map K) (car_x car_y car_yaw car_s car_d : K) (px py : List K)
    (tr : Tracker K) (a a_dot a_ddot b b_dot b_ddot : K)
    (hs : tr.previous_path_s.length = P.param_nb_points)
    (hd : tr.previous_path_d.length = P.param_nb_points)
    (hp : px.length < P.param_nb_points) (hy : px.length ≤ py.length)
    (gs : tr.previous_path_s[P.param_nb_points - 1 - px.length]? = some [a, a_dot, a_ddot])
    (gd : tr.previous_path_d[P.param_nb_points - 1 - px.length]? = some [b, b_dot, b_ddot]) :
    ((∃ tr1, generate_trajectory_jmt_at P target_lane target_vel map car_x car_y car_yaw
          car_s car_d px py tr = Except.error (Fault.assertion, tr1))
        ↔ (car_s ≠ a ∨ car_d ≠ b)) ∧
    (generate_trajectory_jmt P target_lane target_vel map car_x car_y car_yaw
          car_s car_d px py tr = Except.error Fault.assertion
        ↔ (car_s ≠ a ∨ car_d ≠ b)) ∧
    (∀ e tr1, generate_trajectory_jmt_at P target_lane target_vel map car_x car_y car_yaw
          car_s car_d px py tr = Except.error (e, tr1) → e = Fault.assertion ∧ tr1 = tr) ∧
    ((car_s = a ∧ car_d = b) →
      ∃ r, generate_trajectory_jmt_at P target_lane target_vel map car_x car_y car_yaw
          car_s car_d px py tr = Except.ok r) := by
  have hlast : (P.param_nb_points : Int) - ((px.length : ℕ) : Int) - 1
      = ((P.param_nb_points - 1 - px.length : ℕ) : Int) := by omega
  have s0 := vget2_natCast tr.previous_path_s _ 0 _ a gs rfl
  have d0 := vget2_natCast tr.previous_path_d _ 0 _ b gd rfl
  simp only [Nat.cast_zero] at s0 d0
  have hfg := generate_trajectory_jmt_at_forget P target_lane target_vel map car_x car_y
    car_yaw car_s car_d px py tr
  have key : ((car_s ≠ a ∨ car_d ≠ b) ∧
        generate_trajectory_jmt_at P target_lane target_vel map car_x car_y car_yaw
          car_s car_d px py tr = Except.error (Fault.assertion, tr)) ∨
      ((car_s = a ∧ car_d = b) ∧
        ∃ r, generate_trajectory_jmt_at P target_lane target_vel map car_x car_y car_yaw
          car_s car_d px py tr = Except.ok r) := by
    by_cases h1 : car_s = a
    · by_cases h2 : car_d = b
      · right
        subst h1 h2
        have hok0 := generate_trajectory_jmt_ok P target_lane target_vel map car_x car_y
          car_yaw car_s car_d px py tr a_dot a_ddot b_dot b_ddot hs hd hp hy gs gd
        exact ⟨⟨rfl, rfl⟩, _, mapError_eq_ok Prod.fst _ _ (hfg.trans hok0)⟩
      · left
        refine ⟨Or.inr h2, ?_⟩
        simp only [generate_trajectory_jmt_at, hlast, s0, d0, withTracker, cassert, bind,
          Except.bind, if_neg h2, if_pos h1]
    · left
      refine ⟨Or.inl h1, ?_⟩
      simp only [generate_trajectory_jmt_at, hlast, s0, withTracker, cassert, bind,
        Except.bind, if_neg h1]
  rcases key with ⟨hne, herr⟩ | ⟨⟨h1, h2⟩, r, hok⟩
  · refine ⟨⟨fun _ => hne, fun _ => ⟨tr, herr⟩⟩, ⟨fun _ => hne, fun _ => ?_⟩, ?_, ?_⟩
    · rw [← hfg, herr]; rfl
    · intro e tr1 h
      rw [herr] at h
      simp only [Except.error.injEq, Prod.mk.injEq] at h
      exact ⟨h.1.symm, h.2.symm⟩
    · intro h
      rcases hne with hne | hne
      · exact absurd h.1 hne
      · exact absurd h.2 hne
  · refine ⟨⟨?_, ?_⟩, ⟨?_, ?_⟩, ?_, fun _ => ⟨r, hok⟩⟩
    · rintro ⟨tr1, h⟩
      rw [hok] at h; cases h
    · intro h
      rcases h with h | h
      · exact absurd h1 h
      · exact absurd h2 h
    · intro h
      rw [← hfg, hok] at h; cases h
    · intro h
      rcases h with h | h
      · exact absurd h1 h
      · exact absurd h2 h
    · intro e tr1 h
      rw [hok] at h; cases h

/-- Witness of C12: the stationary tracker (`s = 100`), three previous points
and a car reported at `s = 99`: the call aborts with the buffers untouched. -/
theorem desynchronization_aborts_atomically_witness :
    (∃ tr1, generate_trajectory_jmt_at testParams 1 49 testMap 3 6 0 99 6 [1, 2, 3] [6, 6, 6]
        stationaryTracker = Except.error (Fault.assertion, tr1)) ∧
    (∀ e tr1, generate_trajectory_jmt_at testParams 1 49 testMap 3 6 0 99 6 [1, 2, 3] [6, 6, 6]
        stationaryTracker = Except.error (e, tr1) → e = Fault.assertion ∧
          tr1 = stationaryTracker) :=
  have h := desynchronization_aborts_atomically testParams 1 49 testMap 3 6 0 99 6
    [1, 2, 3] [6, 6, 6] stationaryTracker 100 0 0 6 0 0 rfl rfl (by decide) (by decide) rfl rfl
  ⟨h.1.mpr (Or.inl (by norm_num)), h.2.2.1⟩

end RunWithBuffersFacts

end Trajectory
